import Mathlib

/-!
Verification development for the MedicalRecord_Processor repository.

Python strings are modelled as `List Char`.  The redaction engine
(`redact_sensitive_information` in `src/pdf_processor.py` and `src/main.py`)
is modelled by a shallow embedding of the fragment of Python's `re` module
that the rule set uses: character classes, concatenation, alternation,
greedy quantifiers, word boundaries, and fixed-width negative
lookbehind/lookahead.  Matching uses Python's backtracking preference
order (leftmost start, first alternative, greedy repetition), realised as
a fuel-bounded continuation-passing matcher; `re.sub` is the usual
left-to-right scan replacing every non-overlapping match.

Character-class primitives are the ASCII readings of Python's \d, \w, \s.
-/

set_option maxRecDepth 200000
set_option maxHeartbeats 2000000

namespace MedRec

/-- ASCII decimal digit, the model of the regex class \d. -/
def isDigitC (c : Char) : Bool := '0' ≤ c && c ≤ '9'

/-- ASCII lower-case letter. -/
def isLowerC (c : Char) : Bool := 'a' ≤ c && c ≤ 'z'

/-- ASCII upper-case letter. -/
def isUpperC (c : Char) : Bool := 'A' ≤ c && c ≤ 'Z'

/-- ASCII word character, the model of the regex class \w. -/
def isWordC (c : Char) : Bool := isDigitC c || isLowerC c || isUpperC c || c == '_'

/-- Whitespace, the model of the regex class \s (and of Python str.strip). -/
def isSpaceC (c : Char) : Bool :=
  c == ' ' || c == '\t' || c == '\n' || c == '\r' || c == '\x0b' || c == '\x0c'

/-- Regular-expression abstract syntax: exactly the constructs used by the
redaction rule set.  `cls` matches one character satisfying a predicate;
`nlb`/`nla` are fixed-string negative lookbehind/lookahead; `wb` is \b. -/
inductive RE where
  | eps
  | cls (p : Char → Bool)
  | cat (a b : RE)
  | alt (a b : RE)
  | star (a : RE)
  | wb
  | nlb (t : List Char)
  | nla (t : List Char)

/-- The character of `s` at index `i`, if any. -/
def charAt (s : List Char) (i : Nat) : Option Char := (s.drop i).head?

/-- Whether the character at index `i` is a word character (false past the end). -/
def wordAt (s : List Char) (i : Nat) : Bool :=
  match charAt s i with
  | some c => isWordC c
  | none => false

/-- Word-boundary test at position `pos` of `s`, as for \b. -/
def atWB (s : List Char) (pos : Nat) : Bool :=
  (if pos == 0 then false else wordAt s (pos - 1)) != wordAt s pos

/-- Whether `t` occurs in `s` starting at index `i`. -/
def sliceIs (s : List Char) (i : Nat) (t : List Char) : Bool :=
  (s.drop i).take t.length == t

/-- Backtracking matcher in continuation-passing style.  `mtch fuel r s pos k`
tries to match `r` in `s` at `pos` and passes the end position to `k`;
alternatives are tried left first, repetition is greedy, so the first success
of the depth-first search is returned, as in Python's `re`.  `fuel` bounds the
depth of the search; every recursive call decreases it. -/
def mtch : Nat → RE → List Char → Nat → (Nat → Option Nat) → Option Nat
  | 0, _, _, _, _ => none
  | _ + 1, .eps, _, pos, k => k pos
  | _ + 1, .cls p, s, pos, k =>
    match charAt s pos with
    | some c => if p c then k (pos + 1) else none
    | none => none
  | f + 1, .cat a b, s, pos, k => mtch f a s pos (fun q => mtch f b s q k)
  | f + 1, .alt a b, s, pos, k =>
    (mtch f a s pos k).orElse (fun _ => mtch f b s pos k)
  | f + 1, .star a, s, pos, k =>
    (mtch f a s pos (fun q => if pos < q then mtch f (.star a) s q k else none)).orElse
      (fun _ => k pos)
  | _ + 1, .wb, s, pos, k => if atWB s pos then k pos else none
  | _ + 1, .nlb t, s, pos, k =>
    if t.length ≤ pos && sliceIs s (pos - t.length) t then none else k pos
  | _ + 1, .nla t, s, pos, k =>
    if sliceIs s pos t then none else k pos

/-- Structural size of a pattern, used to compute a sufficient fuel. -/
def reSize : RE → Nat
  | .eps => 1
  | .cls _ => 1
  | .cat a b => reSize a + reSize b + 1
  | .alt a b => reSize a + reSize b + 1
  | .star a => reSize a + 1
  | .wb => 1
  | .nlb _ => 1
  | .nla _ => 1

/-- Fuel sufficient for any single match attempt of `r` on `s`: along one
branch of the search each subterm of `r` is entered at most once per input
position (repetition must consume to recurse). -/
def stdFuel (r : RE) (s : List Char) : Nat := (reSize r + 2) * (s.length + 4)

/-- End position of the preferred match of `r` at position `pos` of `s`
(Python `re` semantics), if any. -/
def findEnd (r : RE) (s : List Char) (pos : Nat) : Option Nat :=
  mtch (stdFuel r s) r s pos some

/-- One pass of `re.sub`, scanning from `pos`: at each position try a match;
on a non-empty match emit the replacement and continue after the match, on an
empty match emit the replacement and the current character, otherwise copy the
character.  The fuel `s.length + 1 - pos` suffices since every step advances. -/
def subFrom : Nat → RE → List Char → List Char → Nat → List Char
  | 0, _, _, s, pos => s.drop pos
  | f + 1, r, repl, s, pos =>
    match findEnd r s pos with
    | some e =>
      if pos < e then repl ++ subFrom f r repl s e
      else
        match charAt s pos with
        | some c => repl ++ c :: subFrom f r repl s (pos + 1)
        | none => repl
    | none =>
      match charAt s pos with
      | some c => c :: subFrom f r repl s (pos + 1)
      | none => []

/-- `re.sub(r, repl, s)` with a literal replacement string. -/
def pySub (r : RE) (repl : List Char) (s : List Char) : List Char :=
  subFrom (s.length + 1) r repl s 0

/-! ## Pattern construction helpers -/

/-- Literal character (case-sensitive). -/
def lchr (c : Char) : RE := .cls (fun x => x == c)

/-- Literal character under re.IGNORECASE. -/
def cichr (c : Char) : RE := .cls (fun x => x.toLower == c.toLower)

/-- Right-nested concatenation of a list of patterns. -/
def catl (l : List RE) : RE := l.foldr .cat .eps

/-- Alternation over a nonempty list, first alternative preferred. -/
def altl : List RE → RE
  | [] => .cls (fun _ => false)
  | [x] => x
  | x :: xs => .alt x (altl xs)

/-- Case-sensitive literal string. -/
def lit (s : String) : RE := catl (s.toList.map lchr)

/-- Case-insensitive literal string. -/
def cilit (s : String) : RE := catl (s.toList.map cichr)

/-- Greedy `?`. -/
def opt (a : RE) : RE := .alt a .eps

/-- Greedy `+`. -/
def plus (a : RE) : RE := .cat a (.star a)

/-- Exactly `n` copies. -/
def reps : Nat → RE → RE
  | 0, _ => .eps
  | n + 1, a => .cat a (reps n a)

/-- Greedy `{0,n}`. -/
def upTo : Nat → RE → RE
  | 0, _ => .eps
  | n + 1, a => .alt (.cat a (upTo n a)) .eps

/-- Character range class. -/
def rng (a b : Char) : RE := .cls (fun c => a ≤ c && c ≤ b)

/-- The class \d. -/
def dC : RE := .cls isDigitC

/-- The class \s. -/
def sC : RE := .cls isSpaceC

/-- The class \w. -/
def wC : RE := .cls isWordC

/-! ## The redaction rule set

Transcribed from `redact_sensitive_information` in src/pdf_processor.py
(the src/main.py copy differs only in the separator class of the phone
patterns, noted below).  Comments give the source regex with the quote
character written QUOTE and the apostrophe written APOS. -/

/-- Any ASCII letter: the classes [A-Z] and [a-z] under re.IGNORECASE. -/
def letterC : RE := .cls (fun c => isUpperC c || isLowerC c)

/-- The class [:#]. -/
def colonHash : RE := .cls (fun c => c == ':' || c == '#')

/-- The class [-.\\s] of the pdf_processor phone patterns: in a raw string
the doubled backslash makes this the four literal characters
hyphen, dot, backslash, letter s (not whitespace). -/
def pdfSep : RE := .cls (fun c => c == '-' || c == '.' || c == '\\' || c == 's')

/-- The class [-.\s] of the main.py phone patterns: hyphen, dot, whitespace. -/
def mainSep : RE := .cls (fun c => c == '-' || c == '.' || isSpaceC c)

/-- The class [\s-]. -/
def spDash : RE := .cls (fun c => isSpaceC c || c == '-')

/-- The class DS = hyphen or forward slash (written in the source as a
two-character class). -/
def dashSlash : RE := .cls (fun c => c == '-' || c == '/')

/-- The class [A-Z0-9] under re.IGNORECASE. -/
def alnumC : RE := .cls (fun c => isUpperC c || isLowerC c || isDigitC c)

/-- The quantifier \d{1,2}. -/
def d12 : RE := .cat dC (upTo 1 dC)

/-- The quantifier \d{2,4}. -/
def d24 : RE := .cat dC (.cat dC (upTo 2 dC))

/-- Patient-name pattern 1, IGNORECASE: \bWing\s+L\.?\s+Ho\b -/
def patientName1 : RE :=
  catl [.wb, cilit "Wing", plus sC, cilit "L", opt (lchr '.'), plus sC, cilit "Ho", .wb]

/-- Patient-name pattern 2, IGNORECASE: \bWing\s+Ho\b -/
def patientName2 : RE := catl [.wb, cilit "Wing", plus sC, cilit "Ho", .wb]

/-- Patient-name pattern 3, IGNORECASE: (?<!QUOTE)\bWing\b(?!QUOTE) -/
def patientName3 : RE := catl [.nlb ['"'], .wb, cilit "Wing", .wb, .nla ['"']]

/-- Phone pattern 1: \(\d{3}\)\s*\d{3}SEP?\d{4} where SEP is the separator class. -/
def phonePat1 (sep : RE) : RE :=
  catl [lchr '(', reps 3 dC, lchr ')', .star sC, reps 3 dC, opt sep, reps 4 dC]

/-- Phone pattern 2: \d{3}SEP\d{3}SEP\d{4}. -/
def phonePat2 (sep : RE) : RE :=
  catl [reps 3 dC, sep, reps 3 dC, sep, reps 4 dC]

/-- Phone pattern 3: \b\d{10}\b. -/
def phonePat3 : RE := catl [.wb, reps 10 dC, .wb]

/-- Phone pattern 4: \+?1?\s*\(\d{3}\)\s*\d{3}SEP?\d{4}. -/
def phonePat4 (sep : RE) : RE :=
  catl [opt (lchr '+'), opt (lchr '1'), .star sC,
        lchr '(', reps 3 dC, lchr ')', .star sC, reps 3 dC, opt sep, reps 4 dC]

/-- SSN: \b\d{3}-\d{2}-\d{4}\b. -/
def ssnRE : RE :=
  catl [.wb, reps 3 dC, lchr '-', reps 2 dC, lchr '-', reps 4 dC, .wb]

/-- The class [A-Za-z0-9._%+-]. -/
def emailLocalC : RE :=
  .cls (fun c => isUpperC c || isLowerC c || isDigitC c ||
    c == '.' || c == '_' || c == '%' || c == '+' || c == '-')

/-- The class [A-Za-z0-9.-]. -/
def emailDomC : RE :=
  .cls (fun c => isUpperC c || isLowerC c || isDigitC c || c == '.' || c == '-')

/-- The class [A-Z|a-z]: note the literal vertical bar in the source class. -/
def emailTldC : RE := .cls (fun c => isUpperC c || isLowerC c || c == '|')

/-- Email: \b[A-Za-z0-9._%+-]+@[A-Za-z0-9.-]+\.[A-Z|a-z]{2,}\b. -/
def emailRE : RE :=
  catl [.wb, plus emailLocalC, lchr '@', plus emailDomC, lchr '.',
        emailTldC, emailTldC, .star emailTldC, .wb]

/-- MRN pattern 1, (?i): MRN\s*[:#]?\s*\d+ -/
def mrn1 : RE := catl [cilit "MRN", .star sC, opt colonHash, .star sC, plus dC]

/-- MRN pattern 2, (?i): Medical\s+Record\s+(?:Number|#)\s*[:#]?\s*\d+ -/
def mrn2 : RE :=
  catl [cilit "Medical", plus sC, cilit "Record", plus sC,
        .alt (cilit "Number") (lchr '#'), .star sC, opt colonHash, .star sC, plus dC]

/-- MRN pattern 3, (?i): MR\s*#\s*\d+ -/
def mrn3 : RE := catl [cilit "MR", .star sC, lchr '#', .star sC, plus dC]

/-- MRN pattern 4, (?i): Patient\s+ID\s*[:#]?\s*\d+ -/
def mrn4 : RE :=
  catl [cilit "Patient", plus sC, cilit "ID", .star sC, opt colonHash, .star sC, plus dC]

/-- Credit card: \b\d{4}[\s-]?\d{4}[\s-]?\d{4}[\s-]?\d{4}\b. -/
def ccRE : RE :=
  catl [.wb, reps 4 dC, opt spDash, reps 4 dC, opt spDash,
        reps 4 dC, opt spDash, reps 4 dC, .wb]

/-- Account, (?i): (?:Account|Acct)(?:\s+(?:Number|#|No\.?))?\s*[:#]?\s*\d+ -/
def accountRE : RE :=
  catl [.alt (cilit "Account") (cilit "Acct"),
        opt (catl [plus sC,
          altl [cilit "Number", lchr '#', .cat (cilit "No") (opt (lchr '.'))]]),
        .star sC, opt colonHash, .star sC, plus dC]

/-- The label alternative (?:DOB|Date\s+of\s+Birth), case-insensitive. -/
def dobLabel : RE :=
  .alt (cilit "DOB") (catl [cilit "Date", plus sC, cilit "of", plus sC, cilit "Birth"])

/-- DOB pattern 1, (?i): LABEL\s*[:#]?\s*\d{1,2}DS\d{1,2}DS\d{2,4} with DS
the hyphen-or-slash class. -/
def dob1 : RE :=
  catl [dobLabel, .star sC, opt colonHash, .star sC, d12, dashSlash, d12, dashSlash, d24]

/-- DOB pattern 2, (?i): LABEL\s*[:#]?\s*\w+\s+\d{1,2},?\s+\d{4} -/
def dob2 : RE :=
  catl [dobLabel, .star sC, opt colonHash, .star sC, plus wC, plus sC,
        d12, opt (lchr ','), plus sC, reps 4 dC]

/-- Abbreviated month alternation Jan|Feb|...|Dec, case-insensitive. -/
def monthsAbbr : RE :=
  altl [cilit "Jan", cilit "Feb", cilit "Mar", cilit "Apr", cilit "May", cilit "Jun",
        cilit "Jul", cilit "Aug", cilit "Sep", cilit "Oct", cilit "Nov", cilit "Dec"]

/-- DOB pattern 3, (?i): \bborn\s+MONTHABBR[a-z]*\.?\s+\d{1,2},?\s+\d{4} -/
def dob3 : RE :=
  catl [.wb, cilit "born", plus sC, monthsAbbr, .star letterC, opt (lchr '.'),
        plus sC, d12, opt (lchr ','), plus sC, reps 4 dC]

/-- Full month alternation January|...|December, case-insensitive. -/
def monthsFull : RE :=
  altl [cilit "January", cilit "February", cilit "March", cilit "April", cilit "May",
        cilit "June", cilit "July", cilit "August", cilit "September", cilit "October",
        cilit "November", cilit "December"]

/-- DOB pattern 4, (?i): \bborn\s+MONTHFULL\s+\d{1,2},?\s+\d{4} -/
def dob4 : RE :=
  catl [.wb, cilit "born", plus sC, monthsFull, plus sC, d12, opt (lchr ','),
        plus sC, reps 4 dC]

/-- The street-suffix alternation of the address pattern, in source order:
Street|St\b|Avenue|Ave\b|Road|Rd\b|Boulevard|Blvd\b|Lane|Ln\b|Drive|Dr\b|Court|Ct\b|Way\b|Place|Pl\b -/
def streetSuffix : RE :=
  altl [cilit "Street", .cat (cilit "St") .wb, cilit "Avenue", .cat (cilit "Ave") .wb,
        cilit "Road", .cat (cilit "Rd") .wb, cilit "Boulevard", .cat (cilit "Blvd") .wb,
        cilit "Lane", .cat (cilit "Ln") .wb, cilit "Drive", .cat (cilit "Dr") .wb,
        cilit "Court", .cat (cilit "Ct") .wb, .cat (cilit "Way") .wb,
        cilit "Place", .cat (cilit "Pl") .wb]

/-- Address, IGNORECASE:
\d+\s+[A-Z][a-z]+\s+SUFFIX\.?\s*(?:#\d+)? -/
def addressRE : RE :=
  catl [plus dC, plus sC, letterC, plus letterC, plus sC, streetSuffix,
        opt (lchr '.'), .star sC, opt (.cat (lchr '#') (plus dC))]

/-- ZIP: (?<!COVID-)(?<!-)\b\d{5}(?:-\d{4})?\b. -/
def zipRE : RE :=
  catl [.nlb "COVID-".toList, .nlb ['-'], .wb, reps 5 dC,
        opt (.cat (lchr '-') (reps 4 dC)), .wb]

/-- Generic name pattern 1, (?i):
(?:Patient\s+Name|Name)\s*[:#]?\s*[A-Z][a-z]+(?:\s+[A-Z][a-z]+)+ -/
def gname1 : RE :=
  catl [.alt (catl [cilit "Patient", plus sC, cilit "Name"]) (cilit "Name"),
        .star sC, opt colonHash, .star sC, letterC, plus letterC,
        plus (catl [plus sC, letterC, plus letterC])]

/-- Generic name pattern 2, (?i): (?:First\s+Name)\s*[:#]?\s*[A-Z][a-z]+ -/
def gname2 : RE :=
  catl [cilit "First", plus sC, cilit "Name", .star sC, opt colonHash, .star sC,
        letterC, plus letterC]

/-- Generic name pattern 3, (?i): (?:Last\s+Name)\s*[:#]?\s*[A-Z][a-z]+ -/
def gname3 : RE :=
  catl [cilit "Last", plus sC, cilit "Name", .star sC, opt colonHash, .star sC,
        letterC, plus letterC]

/-- Driver license, (?i): (?:Driver\APOS?s?\s+License|DL)\s*[:#]?\s*[A-Z0-9]+ -/
def dlRE : RE :=
  catl [.alt (catl [cilit "Driver", opt (lchr (Char.ofNat 39)), opt (cichr 's'),
                    plus sC, cilit "License"])
             (cilit "DL"),
        .star sC, opt colonHash, .star sC, plus alnumC]

/-! ## The ordered rule list and the redaction function -/

/-- The closed set of redaction categories of the data model. -/
inductive Category where
  | name | phone | ssn | email | mrn | cc | account | dob | address | zip | dl
deriving DecidableEq

/-- One redaction rule: a pattern, its literal replacement token, and its
category tag. -/
structure Rule where
  pat : RE
  repl : List Char
  cat : Category

/-- The full ordered rule list of `redact_sensitive_information` in
src/pdf_processor.py, flattened in exactly the order the source applies the
substitutions. -/
def ruleList : List Rule :=
  [⟨patientName1, "[REDACTED-NAME]".toList, .name⟩,
   ⟨patientName2, "[REDACTED-NAME]".toList, .name⟩,
   ⟨patientName3, "[REDACTED-NAME]".toList, .name⟩,
   ⟨phonePat1 pdfSep, "[REDACTED-PHONE]".toList, .phone⟩,
   ⟨phonePat2 pdfSep, "[REDACTED-PHONE]".toList, .phone⟩,
   ⟨phonePat3, "[REDACTED-PHONE]".toList, .phone⟩,
   ⟨phonePat4 pdfSep, "[REDACTED-PHONE]".toList, .phone⟩,
   ⟨ssnRE, "[REDACTED-SSN]".toList, .ssn⟩,
   ⟨emailRE, "[REDACTED-EMAIL]".toList, .email⟩,
   ⟨mrn1, "[REDACTED-MRN]".toList, .mrn⟩,
   ⟨mrn2, "[REDACTED-MRN]".toList, .mrn⟩,
   ⟨mrn3, "[REDACTED-MRN]".toList, .mrn⟩,
   ⟨mrn4, "[REDACTED-MRN]".toList, .mrn⟩,
   ⟨ccRE, "[REDACTED-CC]".toList, .cc⟩,
   ⟨accountRE, "[REDACTED-ACCOUNT]".toList, .account⟩,
   ⟨dob1, "[REDACTED-DOB]".toList, .dob⟩,
   ⟨dob2, "[REDACTED-DOB]".toList, .dob⟩,
   ⟨dob3, "[REDACTED-DOB]".toList, .dob⟩,
   ⟨dob4, "[REDACTED-DOB]".toList, .dob⟩,
   ⟨addressRE, "[REDACTED-ADDRESS]".toList, .address⟩,
   ⟨zipRE, "[REDACTED-ZIP]".toList, .zip⟩,
   ⟨gname1, "[REDACTED-NAME]".toList, .name⟩,
   ⟨gname2, "[REDACTED-NAME]".toList, .name⟩,
   ⟨gname3, "[REDACTED-NAME]".toList, .name⟩,
   ⟨dlRE, "[REDACTED-DL]".toList, .dl⟩]

/-- The rule list of the src/main.py copy: identical except that the three
parenthesised or separated phone patterns use the [-.\s] class. -/
def ruleListMain : List Rule :=
  [⟨patientName1, "[REDACTED-NAME]".toList, .name⟩,
   ⟨patientName2, "[REDACTED-NAME]".toList, .name⟩,
   ⟨patientName3, "[REDACTED-NAME]".toList, .name⟩,
   ⟨phonePat1 mainSep, "[REDACTED-PHONE]".toList, .phone⟩,
   ⟨phonePat2 mainSep, "[REDACTED-PHONE]".toList, .phone⟩,
   ⟨phonePat3, "[REDACTED-PHONE]".toList, .phone⟩,
   ⟨phonePat4 mainSep, "[REDACTED-PHONE]".toList, .phone⟩,
   ⟨ssnRE, "[REDACTED-SSN]".toList, .ssn⟩,
   ⟨emailRE, "[REDACTED-EMAIL]".toList, .email⟩,
   ⟨mrn1, "[REDACTED-MRN]".toList, .mrn⟩,
   ⟨mrn2, "[REDACTED-MRN]".toList, .mrn⟩,
   ⟨mrn3, "[REDACTED-MRN]".toList, .mrn⟩,
   ⟨mrn4, "[REDACTED-MRN]".toList, .mrn⟩,
   ⟨ccRE, "[REDACTED-CC]".toList, .cc⟩,
   ⟨accountRE, "[REDACTED-ACCOUNT]".toList, .account⟩,
   ⟨dob1, "[REDACTED-DOB]".toList, .dob⟩,
   ⟨dob2, "[REDACTED-DOB]".toList, .dob⟩,
   ⟨dob3, "[REDACTED-DOB]".toList, .dob⟩,
   ⟨dob4, "[REDACTED-DOB]".toList, .dob⟩,
   ⟨addressRE, "[REDACTED-ADDRESS]".toList, .address⟩,
   ⟨zipRE, "[REDACTED-ZIP]".toList, .zip⟩,
   ⟨gname1, "[REDACTED-NAME]".toList, .name⟩,
   ⟨gname2, "[REDACTED-NAME]".toList, .name⟩,
   ⟨gname3, "[REDACTED-NAME]".toList, .name⟩,
   ⟨dlRE, "[REDACTED-DL]".toList, .dl⟩]

/-- Apply one rule by global substitution. -/
def applyRule (t : List Char) (r : Rule) : List Char := pySub r.pat r.repl t

/-- `redact_sensitive_information` of src/pdf_processor.py: the rules applied
sequentially, each as a global substitution, in source order. -/
def redact_sensitive_information (t : List Char) : List Char :=
  ruleList.foldl applyRule t

/-- `redact_sensitive_information` of src/main.py (phone separator class
[-.\s] instead of [-.\\s]). -/
def redact_main (t : List Char) : List Char :=
  ruleListMain.foldl applyRule t

/-! ## Claim C1: idempotence of redaction -/

/-- The eleven literal replacement tokens of the rule set. -/
def redactionTokens : List (List Char) :=
  ["[REDACTED-NAME]", "[REDACTED-PHONE]", "[REDACTED-SSN]", "[REDACTED-EMAIL]",
   "[REDACTED-MRN]", "[REDACTED-CC]", "[REDACTED-ACCOUNT]", "[REDACTED-DOB]",
   "[REDACTED-ADDRESS]", "[REDACTED-ZIP]", "[REDACTED-DL]"].map String.toList

/-- C1 fails: redaction is not idempotent.  On the input DOB:1/1/19991234567890
the first pass redacts the date-of-birth label and date (the greedy year
group \d{2,4} stops after four digits), leaving the ten digits 1234567890
glued to the token; the second pass then matches them with the \b\d{10}\b
phone rule, because the closing bracket of the token is a word boundary
that was not there before the date was replaced.  Both the
src/pdf_processor.py and the src/main.py copy of the function misbehave on
this input. -/
theorem C1_not_idempotent :
    redact_sensitive_information
        (redact_sensitive_information "DOB:1/1/19991234567890".toList) ≠
      redact_sensitive_information "DOB:1/1/19991234567890".toList ∧
    redact_main (redact_main "DOB:1/1/19991234567890".toList) ≠
      redact_main "DOB:1/1/19991234567890".toList := by
  constructor <;> decide

/-- C1 amended: no rule of either copy of the rule set matches text shaped
like a literal replacement token — every token of the form
REDACTED-CATEGORY in brackets is a fixed point of both redaction
functions — but idempotence on all inputs fails (see the counterexample). -/
theorem C1_tokens_fixed :
    redactionTokens.all
      (fun tok => redact_sensitive_information tok == tok &&
        redact_main tok == tok) = true := by
  decide

/-! ## Claim C2: evaluation order of the rules -/

/-- The sequential composition of global substitutions in exactly the order
stated by the specification: the specific patient-name patterns, then phone
(four variants), SSN, email, MRN/patient-ID (four variants), credit card,
account number, date of birth (four variants), street address, ZIP code,
generic labeled-name patterns, driver license. -/
def redactClaimOrder (t0 : List Char) : List Char :=
  let t1 := pySub patientName1 "[REDACTED-NAME]".toList t0
  let t2 := pySub patientName2 "[REDACTED-NAME]".toList t1
  let t3 := pySub patientName3 "[REDACTED-NAME]".toList t2
  let t4 := pySub (phonePat1 pdfSep) "[REDACTED-PHONE]".toList t3
  let t5 := pySub (phonePat2 pdfSep) "[REDACTED-PHONE]".toList t4
  let t6 := pySub phonePat3 "[REDACTED-PHONE]".toList t5
  let t7 := pySub (phonePat4 pdfSep) "[REDACTED-PHONE]".toList t6
  let t8 := pySub ssnRE "[REDACTED-SSN]".toList t7
  let t9 := pySub emailRE "[REDACTED-EMAIL]".toList t8
  let t10 := pySub mrn1 "[REDACTED-MRN]".toList t9
  let t11 := pySub mrn2 "[REDACTED-MRN]".toList t10
  let t12 := pySub mrn3 "[REDACTED-MRN]".toList t11
  let t13 := pySub mrn4 "[REDACTED-MRN]".toList t12
  let t14 := pySub ccRE "[REDACTED-CC]".toList t13
  let t15 := pySub accountRE "[REDACTED-ACCOUNT]".toList t14
  let t16 := pySub dob1 "[REDACTED-DOB]".toList t15
  let t17 := pySub dob2 "[REDACTED-DOB]".toList t16
  let t18 := pySub dob3 "[REDACTED-DOB]".toList t17
  let t19 := pySub dob4 "[REDACTED-DOB]".toList t18
  let t20 := pySub addressRE "[REDACTED-ADDRESS]".toList t19
  let t21 := pySub zipRE "[REDACTED-ZIP]".toList t20
  let t22 := pySub gname1 "[REDACTED-NAME]".toList t21
  let t23 := pySub gname2 "[REDACTED-NAME]".toList t22
  let t24 := pySub gname3 "[REDACTED-NAME]".toList t23
  pySub dlRE "[REDACTED-DL]".toList t24

/-- Whether every rule of category NAME occurs strictly before every rule of
another category: once a rule of another category has occurred, no NAME rule
may follow. -/
def namesFirstOrdering (l : List Rule) : Bool :=
  (l.dropWhile (fun r => r.cat == Category.name)).all
    (fun r => r.cat != Category.name)

/-- C2 fails as stated: the final clause — every name rule evaluated
strictly before all non-name rules — is false of the rule list itself,
because the three generic labeled-name rules (category NAME) are evaluated
after phone, SSN, ..., ZIP: rule 21 is a NAME rule but rule 20 is the ZIP
rule. -/
theorem C2_names_first_counterexample :
    namesFirstOrdering ruleList = false ∧
    (ruleList.get? 21).map Rule.cat = some Category.name ∧
    (ruleList.get? 20).map Rule.cat = some Category.zip := by
  decide

/-- C2 amended: redact_sensitive_information is exactly the sequential
composition of global substitutions in the claimed order, and the three
specific patient-name rules (and only they) are evaluated strictly before
all other rules; the three generic labeled-name rules — also of category
NAME — are evaluated after the ZIP rule and before the driver-license
rule. -/
theorem C2_rule_order :
    (∀ t, redact_sensitive_information t = redactClaimOrder t) ∧
    ((ruleList.take 3).all (fun r => r.cat == Category.name) = true) ∧
    (((ruleList.drop 3).take 18).all (fun r => r.cat != Category.name) = true) ∧
    (((ruleList.drop 21).take 3).all (fun r => r.cat == Category.name) = true) ∧
    ((ruleList.drop 24).all (fun r => r.cat == Category.dl) = true) ∧
    ruleList.length = 25 :=
  ⟨fun _ => rfl, by decide, by decide, by decide, by decide, by decide⟩

/-! ## Claim C7: the ZIP rule never fires directly after a hyphen -/

/-- A one-character slice equals the character found there. -/
lemma sliceIs_singleton {s : List Char} {i : Nat} {c : Char}
    (h : charAt s i = some c) : sliceIs s i [c] = true := by
  unfold charAt at h
  unfold sliceIs
  cases hd : s.drop i with
  | nil => rw [hd] at h; simp at h
  | cons a l =>
    rw [hd] at h
    simp only [List.head?] at h
    cases h
    simp

/-- For any fuel and continuation, matching the ZIP pattern at a position
whose preceding character is a hyphen fails: its second negative lookbehind
rejects the position before anything is consumed. -/
lemma mtch_zip_after_hyphen (f : Nat) (s : List Char) (pos : Nat)
    (k : Nat → Option Nat) (h0 : 0 < pos)
    (hh : charAt s (pos - 1) = some '-') :
    mtch f zipRE s pos k = none := by
  have hs : sliceIs s (pos - 1) ['-'] = true := sliceIs_singleton hh
  have h1 : 1 ≤ pos := h0
  cases f with
  | zero => rfl
  | succ f =>
    simp only [zipRE, catl, List.foldr, mtch]
    cases f with
    | zero => rfl
    | succ f =>
      simp only [mtch]
      split
      · rfl
      · cases f with
        | zero => rfl
        | succ f =>
          simp only [mtch, List.length_singleton]
          simp [hs, h1]

/-- C7: in both copies of the redaction function the ZIP rule is the pattern
zipRE applied by global substitution, and a substitution replaces a span
exactly when the preferred match search findEnd succeeds at its start
position (which is always the first digit of the five-digit group, since the
lookbehinds and the word boundary consume nothing).  This theorem shows the
exclusion is a genuine lookbehind on the preceding character, not a
blocklist: at any position of any string whose preceding character is a
hyphen — in particular inside hyphenated clinical-code contexts such as
COVID-19-style tokens — the ZIP pattern does not match, so the rule never
replaces a five-digit group (or its 5+4 extension) there. -/
theorem C7_zip_never_after_hyphen (s : List Char) (pos : Nat) (h0 : 0 < pos)
    (hh : charAt s (pos - 1) = some '-') :
    findEnd zipRE s pos = none :=
  mtch_zip_after_hyphen _ s pos some h0 hh

/-- Witness for C7 at a concrete input: in COVID-12345 the five-digit group
starts at position 6, right after the hyphen, and the ZIP pattern does not
match there. -/
theorem C7_zip_never_after_hyphen_witness :
    0 < 6 ∧ charAt "COVID-12345".toList 5 = some '-' ∧
      findEnd zipRE "COVID-12345".toList 6 = none :=
  ⟨by decide, by decide,
    C7_zip_never_after_hyphen "COVID-12345".toList 6 (by decide) (by decide)⟩

/-! ## A model of the Python values handled by src/schema_transformer.py

Values are strings, integers, booleans, None, lists and dictionaries
(dictionaries as ordered association lists with distinct keys in insertion
order, which is how Python dictionaries iterate).  Failing operations are
modelled in an exception monad; exception payloads (messages) are not
modelled, only the exception class. -/

/-- Shorthand for string literals as character lists. -/
def L (s : String) : List Char := s.toList

/-- A Python value. -/
inductive PyVal where
  | vstr (s : List Char)
  | vint (n : Int)
  | vbool (b : Bool)
  | vnone
  | vlist (l : List PyVal)
  | vdict (l : List (List Char × PyVal))

/-- The Python exception classes the transformer can raise. -/
inductive PyExc where
  | typeError
  | attributeError
  | valueError
  | indexError
deriving DecidableEq

/-- Reduction of the exception-monad operations, for calculation. -/
@[simp] lemma excBindOk {α β : Type} (a : α) (f : α → Except PyExc β) :
    (Except.ok a : Except PyExc α) >>= f = f a := rfl

/-- Binding a failed computation propagates the failure. -/
@[simp] lemma excBindErr {α β : Type} (e : PyExc) (f : α → Except PyExc β) :
    (Except.error e : Except PyExc α) >>= f = Except.error e := rfl

/-- Binding a throw propagates the failure. -/
@[simp] lemma excBindThrow {α β : Type} (e : PyExc) (f : α → Except PyExc β) :
    (throw e : Except PyExc α) >>= f = Except.error e := rfl

/-- throw is the error constructor. -/
@[simp] lemma excThrow {α : Type} (e : PyExc) :
    (throw e : Except PyExc α) = Except.error e := rfl

/-- pure is the ok constructor. -/
@[simp] lemma excPure {α : Type} (a : α) : (pure a : Except PyExc α) = Except.ok a := rfl

/-- Python truthiness. -/
def pyTruthy : PyVal → Bool
  | .vstr s => !s.isEmpty
  | .vint n => n != 0
  | .vbool b => b
  | .vnone => false
  | .vlist l => !l.isEmpty
  | .vdict l => !l.isEmpty

/-- Lookup in a dictionary with a default, as dict.get(k, d). -/
def dictGet (l : List (List Char × PyVal)) (k : List Char) (d : PyVal) : PyVal :=
  match l.find? (fun p => p.1 == k) with
  | some p => p.2
  | none => d

/-- v.get(k, d): defined on dictionaries, AttributeError otherwise. -/
def pyGet (v : PyVal) (k : List Char) (d : PyVal) : Except PyExc PyVal :=
  match v with
  | .vdict l => .ok (dictGet l k d)
  | _ => .error .attributeError

/-- Python iteration: a string yields its characters as one-character
strings, a list its elements, a dictionary its keys; other values raise
TypeError. -/
def pyIter : PyVal → Except PyExc (List PyVal)
  | .vstr s => .ok (s.map (fun c => .vstr [c]))
  | .vlist l => .ok l
  | .vdict l => .ok (l.map (fun p => .vstr p.1))
  | _ => .error .typeError

/-- str.lower, ASCII reading. -/
def lowerStr (s : List Char) : List Char := s.map Char.toLower

/-- Substring containment, as the Python operator in on two strings. -/
def containsSub (s sub : List Char) : Bool :=
  (List.range (s.length + 1)).any (fun i => sliceIs s i sub)

/-- v.lower(): AttributeError unless v is a string. -/
def pyLowerE : PyVal → Except PyExc (List Char)
  | .vstr s => .ok (lowerStr s)
  | _ => .error .attributeError

/-- c.isdigit(): AttributeError unless c is a string; true on a nonempty
all-digit string. -/
def pyIsdigit : PyVal → Except PyExc Bool
  | .vstr s => .ok (!s.isEmpty && s.all isDigitC)
  | _ => .error .attributeError

/-- Equality test against the one-character string containing a dot, as the
comparison of a loop variable with a dot literal (values of other types
compare unequal without error). -/
def isDotStr : PyVal → Bool
  | .vstr s => s == ['.']
  | _ => false

/-- The operator in with a string needle: substring test on a string,
element equality on a list, key membership on a dictionary, TypeError
otherwise. -/
def pyInStr (sub : List Char) (v : PyVal) : Except PyExc Bool :=
  match v with
  | .vstr s => .ok (containsSub s sub)
  | .vlist l => .ok (l.any (fun x => match x with | .vstr t => t == sub | _ => false))
  | .vdict l => .ok (l.any (fun p => p.1 == sub))
  | _ => .error .typeError

/-- v.split(sep) for a one-character separator: AttributeError unless v is a
string. -/
def pySplitStr (v : PyVal) (sep : Char) : Except PyExc (List (List Char)) :=
  match v with
  | .vstr s => .ok (s.splitOn sep)
  | _ => .error .attributeError

/-- l[i], raising IndexError out of range. -/
def listIdx (l : List (List Char)) (i : Nat) : Except PyExc (List Char) :=
  match l[i]? with
  | some x => .ok x
  | none => .error .indexError

/-- The numeric value of a digit string (most significant first). -/
def digitsToNat (l : List Char) : Nat :=
  l.foldl (fun a c => a * 10 + (c.toNat - 48)) 0

/-- An exact decimal number num / 10 ^ scale.  The lab values this code
parses are nonnegative decimal literals; comparisons are exact (the source
compares IEEE doubles; on such literals the comparisons agree except for
decimals closer than one double ulp, which this model reads exactly). -/
structure Dec where
  num : Nat
  scale : Nat

/-- Exact order on decimals by cross multiplication. -/
def decLt (a b : Dec) : Bool := a.num * 10 ^ b.scale < b.num * 10 ^ a.scale

/-- Exact non-strict order on decimals by cross multiplication. -/
def decLe (a b : Dec) : Bool := a.num * 10 ^ b.scale ≤ b.num * 10 ^ a.scale

/-- Python float() applied to a string containing only digits and dots:
defined when there is at most one dot and at least one digit. -/
def parseFloat (s : List Char) : Option Dec :=
  if !(s.all (fun c => isDigitC c || c == '.')) then none
  else if 1 < s.count '.' then none
  else if !(s.any isDigitC) then none
  else
    let ip := s.takeWhile (fun c => c != '.')
    match s.dropWhile (fun c => c != '.') with
    | [] => some ⟨digitsToNat ip, 0⟩
    | _ :: fp => some ⟨digitsToNat ip * 10 ^ fp.length + digitsToNat fp, fp.length⟩

/-- The join of the digit and dot characters of v, as the generator
expression joining c for c in v when c.isdigit() or c is a dot: iterating a
non-iterable raises TypeError, testing isdigit on a non-string element
raises AttributeError. -/
def joinDigitsDots (v : PyVal) : Except PyExc (List Char) :=
  match v with
  | .vstr s => .ok (s.filter (fun c => isDigitC c || c == '.'))
  | _ => do
    let elems ← pyIter v
    let kept ← elems.foldlM (fun acc c => do
      let b ← pyIsdigit c
      if b || isDotStr c then
        match c with
        | .vstr t => pure (acc ++ [t])
        | _ => throw PyExc.typeError
      else pure acc) ([] : List (List Char))
    pure kept.flatten

/-- float of the joined digits and dots of v; ValueError when the joined
string is not a float literal. -/
def floatOfJoined (v : PyVal) : Except PyExc Dec := do
  let s ← joinDigitsDots v
  match parseFloat s with
  | some q => pure q
  | none => throw PyExc.valueError

/-- float of the digit-and-dot characters of a plain string part. -/
def floatOfPart (s : List Char) : Except PyExc Dec :=
  match parseFloat (s.filter (fun c => isDigitC c || c == '.')) with
  | some q => pure q
  | none => throw PyExc.valueError

/-- The body of the try block of determine_lab_status: parse the numeric
value, then dispatch on the shape of the reference range; ok none means the
block fell through without selecting a status. -/
def rangeCompare (value rr : PyVal) : Except PyExc (Option (List Char)) := do
  let nv ← floatOfJoined value
  if ← pyInStr ['-'] rr then do
    let parts ← pySplitStr rr '-'
    let p0 ← listIdx parts 0
    let p1 ← listIdx parts 1
    let lo ← floatOfPart p0
    let hi ← floatOfPart p1
    if decLt nv lo then pure (some (L "Low"))
    else if decLt hi nv then pure (some (L "High"))
    else pure (some (L "Normal"))
  else if ← pyInStr ['<'] rr then do
    let th ← floatOfJoined rr
    if decLe th nv then pure (some (L "High")) else pure (some (L "Normal"))
  else if ← pyInStr ['>'] rr then do
    let th ← floatOfJoined rr
    if decLe nv th then pure (some (L "Low")) else pure (some (L "Normal"))
  else pure none

/-- The numeric tail of determine_lab_status: when both the reference range
and the value are truthy, run the try block rangeCompare, catching exactly
ValueError and IndexError as Normal; a fall-through of the try block also
returns Normal. -/
def labNumericBranch (value reference_range : PyVal) : Except PyExc (List Char) :=
  if pyTruthy reference_range && pyTruthy value then
    match rangeCompare value reference_range with
    | .ok (some st) => .ok st
    | .ok none => .ok (L "Normal")
    | .error .valueError => .ok (L "Normal")
    | .error .indexError => .ok (L "Normal")
    | .error e => .error e
  else .ok (L "Normal")

/-- determine_lab_status from src/schema_transformer.py.  The flag branch
falls through to the numeric branch when the flag contains no keyword; the
except clause catches exactly ValueError and IndexError, yielding Normal;
every other exception propagates. -/
def determine_lab_status (value reference_range abnormal_flag : PyVal) :
    Except PyExc (List Char) := do
  let fromFlag : Option (List Char) ←
    if pyTruthy abnormal_flag then do
      let fl ← pyLowerE abnormal_flag
      if containsSub fl (L "high") || containsSub fl (L "elevated") then
        pure (some (L "High"))
      else if containsSub fl (L "low") then pure (some (L "Low"))
      else if containsSub fl (L "critical") then pure (some (L "Critical"))
      else if containsSub fl (L "normal") then pure (some (L "Normal"))
      else pure none
    else pure none
  match fromFlag with
  | some st => pure st
  | none => labNumericBranch value reference_range

/-! ## String formatting helpers used by the transformer -/

/-- str.replace of underscores by spaces. -/
def underscoreToSpace (s : List Char) : List Char :=
  s.map (fun c => if c == '_' then ' ' else c)

/-- str.title, ASCII reading: a letter that does not follow a letter is
uppercased, a letter that does is lowercased, other characters pass
through. -/
def titleAux : Bool → List Char → List Char
  | _, [] => []
  | prevAlpha, c :: rest =>
    let isAl := isLowerC c || isUpperC c
    (if isAl && !prevAlpha then c.toUpper
     else if isAl then c.toLower else c) :: titleAux isAl rest

/-- str.title. -/
def titleCase (s : List Char) : List Char := titleAux false s

/-- Python repr of a string: quoted with an apostrophe, or with the double
quote when the text holds an apostrophe but no double quote; backslashes,
the quote character, and the common control characters are escaped (ASCII
printable reading). -/
def quoteStr (s : List Char) : List Char :=
  let q : Char := if s.contains (Char.ofNat 39) && !(s.contains '"') then '"'
    else Char.ofNat 39
  let esc : Char → List Char := fun c =>
    if c == '\\' then ['\\', '\\']
    else if c == q then ['\\', q]
    else if c == '\n' then ['\\', 'n']
    else if c == '\r' then ['\\', 'r']
    else if c == '\t' then ['\\', 't']
    else [c]
  q :: (s.flatMap esc) ++ [q]

mutual

/-- Python str() of a value, as used by string interpolation: a string is
itself, containers render with repr of their elements. -/
def pyStrOf : PyVal → List Char
  | .vstr s => s
  | .vint n => (toString n).toList
  | .vbool b => if b then L "True" else L "False"
  | .vnone => L "None"
  | .vlist l => '[' :: List.intercalate (L ", ") (pyReprList l) ++ [']']
  | .vdict l => Char.ofNat 123 :: List.intercalate (L ", ") (pyReprPairs l) ++ [Char.ofNat 125]

/-- Python repr() of a value: as str(), except strings are quoted. -/
def pyReprOf : PyVal → List Char
  | .vstr s => quoteStr s
  | .vint n => (toString n).toList
  | .vbool b => if b then L "True" else L "False"
  | .vnone => L "None"
  | .vlist l => '[' :: List.intercalate (L ", ") (pyReprList l) ++ [']']
  | .vdict l => Char.ofNat 123 :: List.intercalate (L ", ") (pyReprPairs l) ++ [Char.ofNat 125]

/-- repr of each element of a list. -/
def pyReprList : List PyVal → List (List Char)
  | [] => []
  | v :: vs => pyReprOf v :: pyReprList vs

/-- repr of each key-value pair of a dictionary. -/
def pyReprPairs : List (List Char × PyVal) → List (List Char)
  | [] => []
  | (k, v) :: ps => (quoteStr k ++ L ": " ++ pyReprOf v) :: pyReprPairs ps

end

/-! ## The transformer functions of src/schema_transformer.py -/

/-- The transformer loop: apply f to each element in order, collecting the
results, propagating the first exception (a Python for-append loop). -/
def mapME {α β : Type} (l : List α) (f : α → Except PyExc β) : Except PyExc (List β) :=
  match l with
  | [] => .ok []
  | x :: xs => do
    let y ← f x
    let ys ← mapME xs f
    pure (y :: ys)

/-- The per-element body of transform_diagnoses. -/
def diagElem (d : PyVal) : Except PyExc PyVal := do
  let code ← pyGet d (L "icd_code") (.vstr [])
  let desc ← pyGet d (L "condition") (.vstr [])
  let date ← pyGet d (L "date") (.vstr [])
  pure (PyVal.vdict [(L "code", code), (L "description", desc), (L "date", date)])

/-- transform_diagnoses: map each element dictionary of the iterated input to
the frontend shape; a non-iterable input raises TypeError, a non-dictionary
element raises AttributeError at its first .get. -/
def transform_diagnoses (v : PyVal) : Except PyExc PyVal := do
  let elems ← pyIter v
  let ts ← mapME elems diagElem
  pure (.vlist ts)

/-- The per-element body of transform_medications: the upstream route field
is mapped into the frontend indication slot. -/
def medElem (m : PyVal) : Except PyExc PyVal := do
  let name ← pyGet m (L "name") (.vstr [])
  let dosage ← pyGet m (L "dosage") (.vstr [])
  let freq ← pyGet m (L "frequency") (.vstr [])
  let route ← pyGet m (L "route") (.vstr [])
  pure (PyVal.vdict [(L "name", name), (L "dosage", dosage),
    (L "frequency", freq), (L "indication", route)])

/-- transform_medications. -/
def transform_medications (v : PyVal) : Except PyExc PyVal := do
  let elems ← pyIter v
  let ts ← mapME elems medElem
  pure (.vlist ts)

/-- The per-element body of transform_lab_results, computing the derived
status field with determine_lab_status. -/
def labElem (lab : PyVal) : Except PyExc PyVal := do
  let value ← pyGet lab (L "value") (.vstr [])
  let rr ← pyGet lab (L "reference_range") (.vstr [])
  let flag ← pyGet lab (L "abnormal_flag") (.vstr [])
  let tn ← pyGet lab (L "test_name") (.vstr [])
  let unit ← pyGet lab (L "units") (.vstr [])
  let date ← pyGet lab (L "date") (.vstr [])
  let st ← determine_lab_status value rr flag
  pure (PyVal.vdict [(L "test_name", tn), (L "value", value), (L "unit", unit),
    (L "reference_range", rr), (L "date", date), (L "status", .vstr st)])

/-- transform_lab_results. -/
def transform_lab_results (v : PyVal) : Except PyExc PyVal := do
  let elems ← pyIter v
  let ts ← mapME elems labElem
  pure (.vlist ts)

/-- The fixed friendly-label table of transform_vital_signs. -/
def parameterMapping : List (List Char × List Char) :=
  [(L "blood_pressure", L "Blood Pressure"),
   (L "heart_rate", L "Heart Rate"),
   (L "temperature", L "Temperature"),
   (L "respiratory_rate", L "Respiratory Rate"),
   (L "o2_saturation", L "O2 Saturation"),
   (L "weight_bmi", L "Weight/BMI")]

/-- The per-element body of transform_vital_signs.  The fallback argument of
the table lookup — measurement_type with underscores replaced and
title-cased — is evaluated eagerly in the source, so a non-string
measurement_type raises AttributeError even when the table has the key. -/
def vitalElem (vital : PyVal) : Except PyExc PyVal := do
  let mt ← pyGet vital (L "measurement_type") (.vstr [])
  let param : List Char ←
    match mt with
    | .vstr s =>
      match parameterMapping.find? (fun p => p.1 == s) with
      | some p => pure p.2
      | none => pure (titleCase (underscoreToSpace s))
    | _ => throw PyExc.attributeError
  let value ← pyGet vital (L "value") (.vstr [])
  let unit ← pyGet vital (L "units") (.vstr [])
  let date ← pyGet vital (L "date") (.vstr [])
  pure (PyVal.vdict [(L "parameter", .vstr param), (L "value", value),
    (L "unit", unit), (L "date", date)])

/-- transform_vital_signs. -/
def transform_vital_signs (v : PyVal) : Except PyExc PyVal := do
  let elems ← pyIter v
  let ts ← mapME elems vitalElem
  pure (.vlist ts)

/-- The per-element body of transform_clinical_findings_to_notes: the entry
renders as the date in brackets (when truthy), the title-cased category, a
colon, and the finding. -/
def findingElem (finding : PyVal) : Except PyExc (List Char) := do
  let catv ← pyGet finding (L "category") (.vstr [])
  let cat : List Char ←
    match catv with
    | .vstr s => pure (titleCase (underscoreToSpace s))
    | _ => throw PyExc.attributeError
  let ft ← pyGet finding (L "finding") (.vstr [])
  let date ← pyGet finding (L "date") (.vstr [])
  if pyTruthy date then
    pure ('[' :: pyStrOf date ++ L "] " ++ cat ++ L ": " ++ pyStrOf ft)
  else
    pure (cat ++ L ": " ++ pyStrOf ft)

/-- transform_clinical_findings_to_notes. -/
def transform_clinical_findings_to_notes (v : PyVal) : Except PyExc (List Char) := do
  if !pyTruthy v then pure [] else do
    let elems ← pyIter v
    let parts ← mapME elems findingElem
    pure (List.intercalate (L " | ") parts)

/-- create_patient_info: fixed redaction placeholders plus the current
processing date, the impure datetime.now() call modelled as the parameter
today. -/
def create_patient_info (today : List Char) : PyVal :=
  .vdict [(L "name", .vstr (L "[REDACTED]")),
          (L "dob", .vstr (L "[REDACTED]")),
          (L "mrn", .vstr (L "[REDACTED]")),
          (L "date_of_visit", .vstr today)]

/-- transform_claude_output_to_frontend: each section read with a default
and transformed, allergies passed through unchanged, the result wrapped in
the success envelope.  Sections are evaluated in source order, so the first
failing section determines the exception. -/
def transform_claude_output_to_frontend (claude_data : PyVal) (today : List Char) :
    Except PyExc PyVal := do
  let pinfo := create_patient_info today
  let diag ← transform_diagnoses (← pyGet claude_data (L "diagnoses") (.vlist []))
  let meds ← transform_medications (← pyGet claude_data (L "medications") (.vlist []))
  let labs ← transform_lab_results (← pyGet claude_data (L "lab_results") (.vlist []))
  let vits ← transform_vital_signs (← pyGet claude_data (L "vital_signs") (.vlist []))
  let allg ← pyGet claude_data (L "allergies") (.vlist [])
  let notes ← transform_clinical_findings_to_notes
    (← pyGet claude_data (L "clinical_findings") (.vlist []))
  pure (.vdict [
    (L "status", .vstr (L "success")),
    (L "data", .vdict [
      (L "patient_info", pinfo),
      (L "diagnoses", diag),
      (L "medications", meds),
      (L "lab_results", labs),
      (L "vital_signs", vits),
      (L "allergies", allg),
      (L "clinical_notes", .vstr notes)])])

/-- transform_error_to_frontend: the error envelope. -/
def transform_error_to_frontend (error_message : List Char) (error_type : List Char) : PyVal :=
  .vdict [(L "status", .vstr (L "error")),
          (L "error_type", .vstr error_type),
          (L "message", .vstr error_message)]

/-! ## Claim C5: the lab-status classification -/

/-- An optional string as the corresponding Python argument. -/
def optPy : Option (List Char) → PyVal
  | some s => .vstr s
  | none => .vnone

/-- The digit-and-dot characters of a string. -/
def digitsDots (s : List Char) : List Char :=
  s.filter (fun c => isDigitC c || c == '.')

/-- classify_lab as the specification words it: with an abnormal-flag string
present, match keywords case-insensitively in priority order high or
elevated, then low, then critical, then normal; otherwise parse the numeric
value by stripping non-digit, non-dot characters and compare it with the
reference range, which is one of the shapes low-high, less-than threshold
(High when the value is at least the threshold), greater-than threshold
(Low when the value is at most the threshold); any parse failure gives
Normal. -/
def classifyNumeric (value : List Char) (reference_range : Option (List Char)) :
    List Char :=
  match reference_range with
  | some rr =>
    if rr.isEmpty || value.isEmpty then L "Normal"
    else
      match parseFloat (digitsDots value) with
      | none => L "Normal"
      | some nv =>
        if containsSub rr ['-'] then
          match (rr.splitOn '-')[0]?, (rr.splitOn '-')[1]? with
          | some p0, some p1 =>
            match parseFloat (digitsDots p0), parseFloat (digitsDots p1) with
            | some lo, some hi =>
              if decLt nv lo then L "Low"
              else if decLt hi nv then L "High"
              else L "Normal"
            | some _, none => L "Normal"
            | none, _ => L "Normal"
          | some _, none => L "Normal"
          | none, _ => L "Normal"
        else if containsSub rr ['<'] then
          match parseFloat (digitsDots rr) with
          | some th => if decLe th nv then L "High" else L "Normal"
          | none => L "Normal"
        else if containsSub rr ['>'] then
          match parseFloat (digitsDots rr) with
          | some th => if decLe nv th then L "Low" else L "Normal"
          | none => L "Normal"
        else L "Normal"
  | none => L "Normal"

/-- classify_lab, the flag branch over the numeric branch. -/
def classify_lab (value : List Char) (reference_range : Option (List Char))
    (abnormal_flag : Option (List Char)) : List Char :=
  let fromFlag : Option (List Char) :=
    match abnormal_flag with
    | some f =>
      if f.isEmpty then none
      else
        let fl := lowerStr f
        if containsSub fl (L "high") || containsSub fl (L "elevated") then some (L "High")
        else if containsSub fl (L "low") then some (L "Low")
        else if containsSub fl (L "critical") then some (L "Critical")
        else if containsSub fl (L "normal") then some (L "Normal")
        else none
    | none => none
  match fromFlag with
  | some st => st
  | none => classifyNumeric value reference_range

/-- On string inputs the numeric branch never raises and agrees with the
specified numeric classification. -/
lemma labNumericBranch_str (v : List Char) (rr : Option (List Char)) :
    labNumericBranch (.vstr v) (optPy rr) = .ok (classifyNumeric v rr) := by
  rcases rr with _ | r
  · rfl
  · simp only [labNumericBranch, classifyNumeric, optPy, pyTruthy,
      rangeCompare, floatOfJoined, joinDigitsDots, floatOfPart, pyInStr, pySplitStr,
      listIdx, digitsDots, excBindOk, excBindErr, excPure]
    by_cases hr : r.isEmpty <;> by_cases hv : v.isEmpty <;>
      simp only [hr, hv, Bool.not_true, Bool.not_false, Bool.false_and, Bool.true_and,
        Bool.and_false, Bool.and_true, Bool.true_or, Bool.or_true, Bool.false_or,
        Bool.or_false, if_true, if_false]
    · rfl
    · rfl
    · rfl
    cases hpf : parseFloat (List.filter (fun c => isDigitC c || c == '.') v) with
    | none => simp [hpf]
    | some nv =>
      simp only [hpf, excBindOk]
      by_cases hd : containsSub r ['-']
      · simp only [hd, if_true]
        cases h0 : (List.splitOn '-' r)[0]? with
        | none => simp [h0]
        | some p0 =>
          cases h1 : (List.splitOn '-' r)[1]? with
          | none => simp [h0, h1]
          | some p1 =>
            simp only [h0, h1, excBindOk]
            cases hlo : parseFloat (List.filter (fun c => isDigitC c || c == '.') p0) with
            | none => simp [hlo]
            | some lo =>
              cases hhi : parseFloat (List.filter (fun c => isDigitC c || c == '.') p1) with
              | none => simp [hlo, hhi]
              | some hi =>
                simp only [hlo, hhi, excBindOk]
                by_cases hl : decLt nv lo <;> by_cases hh : decLt hi nv <;>
                  simp [hl, hh]
      · by_cases hlt : containsSub r ['<']
        · simp only [hd, hlt, if_true, if_false, Bool.false_eq_true, excBindOk]
          cases hth : parseFloat (List.filter (fun c => isDigitC c || c == '.') r) with
          | none => simp [hth]
          | some th => by_cases hc : decLe th nv <;> simp [hth, hc]
        · by_cases hgt : containsSub r ['>']
          · simp only [hd, hlt, hgt, if_true, if_false, Bool.false_eq_true, excBindOk]
            cases hth : parseFloat (List.filter (fun c => isDigitC c || c == '.') r) with
            | none => simp [hth]
            | some th => by_cases hc : decLe nv th <;> simp [hth, hc]
          · simp [hd, hlt, hgt]

/-- On string inputs, determine_lab_status never raises and agrees with the
specified classification. -/
lemma determine_lab_status_str (v : List Char) (rr flag : Option (List Char)) :
    determine_lab_status (.vstr v) (optPy rr) (optPy flag) = .ok (classify_lab v rr flag) := by
  rcases flag with _ | f
  · simpa only [determine_lab_status, classify_lab, optPy, pyTruthy, Bool.false_eq_true,
      if_false, excBindOk, excPure] using labNumericBranch_str v rr
  · simp only [determine_lab_status, classify_lab, optPy, pyTruthy, pyLowerE]
    by_cases hf : f.isEmpty
    · simpa only [hf, Bool.not_true, Bool.false_eq_true, if_false, if_true, excBindOk,
        excPure] using labNumericBranch_str v rr
    · simp only [hf, Bool.not_false, if_true, excBindOk, excPure]
      by_cases h1 : (containsSub (lowerStr f) (L "high") || containsSub (lowerStr f) (L "elevated")) = true
      · simp [h1]
      · simp only [h1, if_false, Bool.false_eq_true]
        by_cases h2 : containsSub (lowerStr f) (L "low")
        · simp [h2]
        · simp only [h2, if_false, Bool.false_eq_true]
          by_cases h3 : containsSub (lowerStr f) (L "critical")
          · simp [h3]
          · simp only [h3, if_false, Bool.false_eq_true]
            by_cases h4 : containsSub (lowerStr f) (L "normal")
            · simp [h4]
            · simpa only [h4, if_false, Bool.false_eq_true, excBindOk, excPure]
                using labNumericBranch_str v rr

/-- C5: determine_lab_status implements the specified classification for all
string inputs — for every value string, optional reference-range string and
optional abnormal-flag string it returns (without raising) exactly the
status classify_lab prescribes from the specification's wording — and on
the three concrete examples it yields High, Normal and High. -/
theorem C5_lab_status_spec :
    (∀ (v : List Char) (rr flag : Option (List Char)),
      determine_lab_status (.vstr v) (optPy rr) (optPy flag) =
        .ok (classify_lab v rr flag)) ∧
    determine_lab_status (.vstr (L "125")) (.vstr (L "70-100")) .vnone =
      .ok (L "High") ∧
    determine_lab_status (.vstr (L "0.95")) (.vstr (L "0.7-1.3")) .vnone =
      .ok (L "Normal") ∧
    determine_lab_status (.vstr (L "7.2")) (.vstr (L "<5.7")) .vnone =
      .ok (L "High") :=
  ⟨determine_lab_status_str, by rfl, by rfl, by rfl⟩

/-! ## Claims C3 and C4: totality and shape of the normalizer -/

/-- Whether an exception-monad value is a success. -/
def isOkE {α : Type} : Except PyExc α → Bool
  | .ok _ => true
  | .error _ => false

/-- Whether a value is a list. -/
def isListVal : PyVal → Bool
  | .vlist _ => true
  | _ => false

/-- A dictionary whose field values are all strings. -/
def isStrDict : PyVal → Bool
  | .vdict l => l.all (fun p => match p.2 with | .vstr _ => true | _ => false)
  | _ => false

/-- A well-formed category value: a list of string-field dictionaries. -/
def okCategory : PyVal → Bool
  | .vlist l => l.all isStrDict
  | _ => false

/-- Well-formedness of the transformer input for the amended totality claim:
each transformed category key, when present, is bound to a list of
dictionaries with string field values; allergies is unconstrained because it
is passed through untouched. -/
def wellFormedInput : PyVal → Bool
  | .vdict l =>
    ([L "diagnoses", L "medications", L "lab_results", L "vital_signs",
      L "clinical_findings"]).all (fun k => okCategory (dictGet l k (.vlist [])))
  | _ => false

/-- In a string-field dictionary, any lookup with a string default is a
string. -/
lemma dictGet_vstr (l : List (List Char × PyVal))
    (h : isStrDict (.vdict l) = true) (k : List Char) (d : List Char) :
    ∃ s, dictGet l k (.vstr d) = .vstr s := by
  cases hf : l.find? (fun p => p.1 == k) with
  | none => exact ⟨d, by simp [dictGet, hf]⟩
  | some p =>
    have hm := List.mem_of_find?_eq_some hf
    simp only [isStrDict, List.all_eq_true] at h
    have hp := h p hm
    cases hv : p.2 with
    | vstr s => exact ⟨s, by simp [dictGet, hf, hv]⟩
    | vint n => rw [hv] at hp; simp at hp
    | vbool b => rw [hv] at hp; simp at hp
    | vnone => rw [hv] at hp; simp at hp
    | vlist xs => rw [hv] at hp; simp at hp
    | vdict xs => rw [hv] at hp; simp at hp

/-- diagElem succeeds on every dictionary. -/
lemma diagElem_ok (l : List (List Char × PyVal)) :
    isOkE (diagElem (.vdict l)) = true := by
  simp [diagElem, pyGet, isOkE]

/-- medElem succeeds on every dictionary. -/
lemma medElem_ok (l : List (List Char × PyVal)) :
    isOkE (medElem (.vdict l)) = true := by
  simp [medElem, pyGet, isOkE]

/-- labElem succeeds on every string-field dictionary. -/
lemma labElem_ok (l : List (List Char × PyVal))
    (h : isStrDict (.vdict l) = true) :
    isOkE (labElem (.vdict l)) = true := by
  obtain ⟨v, hv⟩ := dictGet_vstr l h (L "value") []
  obtain ⟨r, hr⟩ := dictGet_vstr l h (L "reference_range") []
  obtain ⟨f, hf⟩ := dictGet_vstr l h (L "abnormal_flag") []
  have hd := determine_lab_status_str v (some r) (some f)
  simp only [optPy] at hd
  simp [labElem, pyGet, hv, hr, hf, hd, isOkE]

/-- vitalElem succeeds on every string-field dictionary. -/
lemma vitalElem_ok (l : List (List Char × PyVal))
    (h : isStrDict (.vdict l) = true) :
    isOkE (vitalElem (.vdict l)) = true := by
  obtain ⟨s, hs⟩ := dictGet_vstr l h (L "measurement_type") []
  simp only [vitalElem, pyGet, hs, excBindOk]
  cases hmf : parameterMapping.find? (fun p => p.1 == s) <;>
    simp [hmf, isOkE]

/-- findingElem succeeds on every string-field dictionary. -/
lemma findingElem_ok (l : List (List Char × PyVal))
    (h : isStrDict (.vdict l) = true) :
    isOkE (findingElem (.vdict l)) = true := by
  obtain ⟨s, hs⟩ := dictGet_vstr l h (L "category") []
  obtain ⟨d, hd⟩ := dictGet_vstr l h (L "date") []
  simp only [findingElem, pyGet, hs, hd, excBindOk, excPure]
  cases pyTruthy (PyVal.vstr d) <;> simp [isOkE]

/-- The transformer loop succeeds when every element does. -/
lemma mapME_ok {α β : Type} (l : List α) (f : α → Except PyExc β)
    (h : ∀ x ∈ l, isOkE (f x) = true) : isOkE (mapME l f) = true := by
  induction l with
  | nil => rfl
  | cons x xs ih =>
    have hx := h x (List.mem_cons_self x xs)
    cases hfx : f x with
    | error e => rw [hfx] at hx; simp [isOkE] at hx
    | ok y =>
      have hxs := ih (fun z hz => h z (List.mem_cons_of_mem x hz))
      cases hm : mapME xs f with
      | error e => rw [hm] at hxs; simp [isOkE] at hxs
      | ok ys => simp [mapME, hfx, hm, isOkE]

/-- A per-element guarantee lifts to the whole category transform. -/
lemma listTransform_ok (v : PyVal) (g : PyVal → Except PyExc PyVal)
    (h : okCategory v = true)
    (hg : ∀ l, isStrDict (.vdict l) = true → isOkE (g (.vdict l)) = true) :
    isOkE (do
      let elems ← pyIter v
      let ts ← mapME elems g
      pure (PyVal.vlist ts) : Except PyExc PyVal) = true := by
  cases v with
  | vlist xs =>
    simp only [pyIter, excBindOk]
    have hm : isOkE (mapME xs g) = true := by
      apply mapME_ok
      intro x hx
      simp only [okCategory, List.all_eq_true] at h
      have hsd := h x hx
      cases x with
      | vdict l => exact hg l hsd
      | vstr s => simp [isStrDict] at hsd
      | vint n => simp [isStrDict] at hsd
      | vbool b => simp [isStrDict] at hsd
      | vnone => simp [isStrDict] at hsd
      | vlist l => simp [isStrDict] at hsd
    cases hmm : mapME xs g with
    | error e => rw [hmm] at hm; simp [isOkE] at hm
    | ok ts => simp [hmm, isOkE]
  | vstr s => simp [okCategory] at h
  | vint n => simp [okCategory] at h
  | vbool b => simp [okCategory] at h
  | vnone => simp [okCategory] at h
  | vdict l => simp [okCategory] at h

/-- transform_clinical_findings_to_notes succeeds on well-formed input. -/
lemma notes_ok (v : PyVal) (h : okCategory v = true) :
    isOkE (transform_clinical_findings_to_notes v) = true := by
  cases v with
  | vlist xs =>
    cases xs with
    | nil => rfl
    | cons x rest =>
      simp only [transform_clinical_findings_to_notes, pyTruthy, List.isEmpty,
        Bool.not_false, if_true, pyIter, excBindOk]
      have hm : isOkE (mapME (x :: rest) findingElem) = true := by
        apply mapME_ok
        intro z hz
        simp only [okCategory, List.all_eq_true] at h
        have hsd := h z hz
        cases z with
        | vdict l => exact findingElem_ok l hsd
        | vstr s => simp [isStrDict] at hsd
        | vint n => simp [isStrDict] at hsd
        | vbool b => simp [isStrDict] at hsd
        | vnone => simp [isStrDict] at hsd
        | vlist l => simp [isStrDict] at hsd
      cases hmm : mapME (x :: rest) findingElem with
      | error e => rw [hmm] at hm; simp [isOkE] at hm
      | ok ts => simp [hmm, isOkE]
  | vstr s => simp [okCategory] at h
  | vint n => simp [okCategory] at h
  | vbool b => simp [okCategory] at h
  | vnone => simp [okCategory] at h
  | vdict l => simp [okCategory] at h

/-- C3 fails as stated: a category bound to a malformed value such as a
number makes the normalizer raise TypeError when it iterates it. -/
theorem C3_counterexample :
    transform_claude_output_to_frontend (.vdict [(L "diagnoses", .vint 42)])
      (L "2026-10-12") = .error .typeError := by
  rfl

/-- C3 amended: the normalizer returns normally for every dictionary input
whose transformed categories, when present, are lists of dictionaries with
string field values (missing keys default to empty lists; allergies may be
anything since it is passed through); a malformed category value raises. -/
theorem C3_total_on_wellformed (d : PyVal) (today : List Char)
    (h : wellFormedInput d = true) :
    isOkE (transform_claude_output_to_frontend d today) = true := by
  cases d with
  | vdict l =>
    simp only [wellFormedInput, List.all_eq_true] at h
    have hdg := h (L "diagnoses") (by simp)
    have hmd := h (L "medications") (by simp)
    have hlb := h (L "lab_results") (by simp)
    have hvs := h (L "vital_signs") (by simp)
    have hcf := h (L "clinical_findings") (by simp)
    simp only [transform_claude_output_to_frontend, pyGet, excBindOk]
    have h1 := listTransform_ok (dictGet l (L "diagnoses") (.vlist [])) diagElem hdg
      (fun l2 _ => diagElem_ok l2)
    have h2 := listTransform_ok (dictGet l (L "medications") (.vlist [])) medElem hmd
      (fun l2 _ => medElem_ok l2)
    have h3 := listTransform_ok (dictGet l (L "lab_results") (.vlist [])) labElem hlb
      labElem_ok
    have h4 := listTransform_ok (dictGet l (L "vital_signs") (.vlist [])) vitalElem hvs
      vitalElem_ok
    have h5 := notes_ok (dictGet l (L "clinical_findings") (.vlist [])) hcf
    have h1' : isOkE (transform_diagnoses (dictGet l (L "diagnoses") (.vlist []))) = true := h1
    have h2' : isOkE (transform_medications (dictGet l (L "medications") (.vlist []))) = true := h2
    have h3' : isOkE (transform_lab_results (dictGet l (L "lab_results") (.vlist []))) = true := h3
    have h4' : isOkE (transform_vital_signs (dictGet l (L "vital_signs") (.vlist []))) = true := h4
    cases hx1 : transform_diagnoses (dictGet l (L "diagnoses") (.vlist [])) with
    | error e => rw [hx1] at h1'; simp [isOkE] at h1'
    | ok dg =>
      cases hx2 : transform_medications (dictGet l (L "medications") (.vlist [])) with
      | error e => rw [hx2] at h2'; simp [isOkE] at h2'
      | ok md =>
        cases hx3 : transform_lab_results (dictGet l (L "lab_results") (.vlist [])) with
        | error e => rw [hx3] at h3'; simp [isOkE] at h3'
        | ok lb =>
          cases hx4 : transform_vital_signs (dictGet l (L "vital_signs") (.vlist [])) with
          | error e => rw [hx4] at h4'; simp [isOkE] at h4'
          | ok vs =>
            cases hx5 : transform_clinical_findings_to_notes
                (dictGet l (L "clinical_findings") (.vlist [])) with
            | error e => rw [hx5] at h5; simp [isOkE] at h5
            | ok nt => simp [hx1, hx2, hx3, hx4, hx5, isOkE]
  | vstr s => simp [wellFormedInput] at h
  | vint n => simp [wellFormedInput] at h
  | vbool b => simp [wellFormedInput] at h
  | vnone => simp [wellFormedInput] at h
  | vlist xs => simp [wellFormedInput] at h

/-- A category transform only ever returns a list. -/
lemma listTransform_isList (v w : PyVal) (g : PyVal → Except PyExc PyVal)
    (h : (do
      let elems ← pyIter v
      let ts ← mapME elems g
      pure (PyVal.vlist ts) : Except PyExc PyVal) = .ok w) :
    ∃ ts, w = PyVal.vlist ts := by
  cases hv : pyIter v with
  | error e => rw [hv] at h; simp at h
  | ok elems =>
    rw [hv] at h
    simp only [excBindOk] at h
    cases hm : mapME elems g with
    | error e => rw [hm] at h; simp at h
    | ok ts =>
      rw [hm] at h
      simp only [excBindOk, excPure, Except.ok.injEq] at h
      exact ⟨ts, h.symm⟩

/-- C4 fails as stated: allergies is passed through unvalidated, so the
normalizer returns normally on an input whose allergies value is a number,
and the allergies field of the returned data is not a list. -/
theorem C4_counterexample :
    transform_claude_output_to_frontend (.vdict [(L "allergies", .vint 42)])
        (L "2026-10-12") =
      .ok (.vdict [
        (L "status", .vstr (L "success")),
        (L "data", .vdict [
          (L "patient_info", create_patient_info (L "2026-10-12")),
          (L "diagnoses", .vlist []),
          (L "medications", .vlist []),
          (L "lab_results", .vlist []),
          (L "vital_signs", .vlist []),
          (L "allergies", .vint 42),
          (L "clinical_notes", .vstr [])])]) ∧
    isListVal (.vint 42) = false := by
  constructor
  · rfl
  · rfl

/-- Whenever the normalizer returns, the result is the success envelope
whose data object has exactly the seven required keys, with the four
transformed categories always lists, clinical_notes always a string,
patient_info the fixed placeholder object, and allergies exactly the
upstream value; the empty input yields the all-empty record. -/
lemma transform_frontend_shape :
    (∀ (d : PyVal) (today : List Char) (r : PyVal),
      transform_claude_output_to_frontend d today = .ok r →
      ∃ (dgl mdl lbl vsl : List PyVal) (ag : PyVal) (nt : List Char),
        pyGet d (L "allergies") (.vlist []) = .ok ag ∧
        r = .vdict [
          (L "status", .vstr (L "success")),
          (L "data", .vdict [
            (L "patient_info", create_patient_info today),
            (L "diagnoses", .vlist dgl),
            (L "medications", .vlist mdl),
            (L "lab_results", .vlist lbl),
            (L "vital_signs", .vlist vsl),
            (L "allergies", ag),
            (L "clinical_notes", .vstr nt)])]) ∧
    (∀ today, transform_claude_output_to_frontend (.vdict []) today = .ok (.vdict [
      (L "status", .vstr (L "success")),
      (L "data", .vdict [
        (L "patient_info", create_patient_info today),
        (L "diagnoses", .vlist []),
        (L "medications", .vlist []),
        (L "lab_results", .vlist []),
        (L "vital_signs", .vlist []),
        (L "allergies", .vlist []),
        (L "clinical_notes", .vstr [])])])) := by
  constructor
  · intro d today r h
    unfold transform_claude_output_to_frontend at h
    cases hg1 : pyGet d (L "diagnoses") (.vlist []) with
    | error e => rw [hg1] at h; simp at h
    | ok x1 =>
    rw [hg1] at h; simp only [excBindOk] at h
    cases ht1 : transform_diagnoses x1 with
    | error e => rw [ht1] at h; simp at h
    | ok dg =>
    rw [ht1] at h; simp only [excBindOk] at h
    cases hg2 : pyGet d (L "medications") (.vlist []) with
    | error e => rw [hg2] at h; simp at h
    | ok x2 =>
    rw [hg2] at h; simp only [excBindOk] at h
    cases ht2 : transform_medications x2 with
    | error e => rw [ht2] at h; simp at h
    | ok md =>
    rw [ht2] at h; simp only [excBindOk] at h
    cases hg3 : pyGet d (L "lab_results") (.vlist []) with
    | error e => rw [hg3] at h; simp at h
    | ok x3 =>
    rw [hg3] at h; simp only [excBindOk] at h
    cases ht3 : transform_lab_results x3 with
    | error e => rw [ht3] at h; simp at h
    | ok lb =>
    rw [ht3] at h; simp only [excBindOk] at h
    cases hg4 : pyGet d (L "vital_signs") (.vlist []) with
    | error e => rw [hg4] at h; simp at h
    | ok x4 =>
    rw [hg4] at h; simp only [excBindOk] at h
    cases ht4 : transform_vital_signs x4 with
    | error e => rw [ht4] at h; simp at h
    | ok vs =>
    rw [ht4] at h; simp only [excBindOk] at h
    cases hg5 : pyGet d (L "allergies") (.vlist []) with
    | error e => rw [hg5] at h; simp at h
    | ok ag =>
    rw [hg5] at h; simp only [excBindOk] at h
    cases hg6 : pyGet d (L "clinical_findings") (.vlist []) with
    | error e => rw [hg6] at h; simp at h
    | ok x6 =>
    rw [hg6] at h; simp only [excBindOk] at h
    cases ht6 : transform_clinical_findings_to_notes x6 with
    | error e => rw [ht6] at h; simp at h
    | ok nt =>
    rw [ht6] at h
    simp only [excBindOk, excPure, Except.ok.injEq] at h
    obtain ⟨dgl, hdgl⟩ := listTransform_isList x1 dg diagElem ht1
    obtain ⟨mdl, hmdl⟩ := listTransform_isList x2 md medElem ht2
    obtain ⟨lbl, hlbl⟩ := listTransform_isList x3 lb labElem ht3
    obtain ⟨vsl, hvsl⟩ := listTransform_isList x4 vs vitalElem ht4
    subst hdgl hmdl hlbl hvsl
    exact ⟨dgl, mdl, lbl, vsl, ag, nt, rfl, h.symm⟩
  · intro today
    rfl

/-- Witness for the amended C3 at a concrete well-formed input. -/
theorem C3_total_on_wellformed_witness :
    wellFormedInput (.vdict [(L "diagnoses",
      .vlist [.vdict [(L "condition", .vstr (L "Hypertension"))]])]) = true ∧
    isOkE (transform_claude_output_to_frontend
      (.vdict [(L "diagnoses",
        .vlist [.vdict [(L "condition", .vstr (L "Hypertension"))]])])
      (L "2026-10-12")) = true :=
  ⟨by rfl,
    C3_total_on_wellformed
      (.vdict [(L "diagnoses",
        .vlist [.vdict [(L "condition", .vstr (L "Hypertension"))]])])
      (L "2026-10-12") (by rfl)⟩

/-- C4 amended: whenever the normalizer returns, the result is the success
envelope whose data object has exactly the seven required keys, with
diagnoses, medications, lab_results and vital_signs always lists,
clinical_notes always a string, patient_info the fixed placeholder object,
and allergies exactly the upstream value (defaulting to the empty list) —
so allergies is a list only when the upstream value was a list or absent;
and on the empty input every array is empty and clinical_notes is the empty
string. -/
theorem C4_shape :
    (∀ (d : PyVal) (today : List Char) (r : PyVal),
      transform_claude_output_to_frontend d today = .ok r →
      ∃ (dgl mdl lbl vsl : List PyVal) (ag : PyVal) (nt : List Char),
        pyGet d (L "allergies") (.vlist []) = .ok ag ∧
        r = .vdict [
          (L "status", .vstr (L "success")),
          (L "data", .vdict [
            (L "patient_info", create_patient_info today),
            (L "diagnoses", .vlist dgl),
            (L "medications", .vlist mdl),
            (L "lab_results", .vlist lbl),
            (L "vital_signs", .vlist vsl),
            (L "allergies", ag),
            (L "clinical_notes", .vstr nt)])]) ∧
    (∀ today, transform_claude_output_to_frontend (.vdict []) today = .ok (.vdict [
      (L "status", .vstr (L "success")),
      (L "data", .vdict [
        (L "patient_info", create_patient_info today),
        (L "diagnoses", .vlist []),
        (L "medications", .vlist []),
        (L "lab_results", .vlist []),
        (L "vital_signs", .vlist []),
        (L "allergies", .vlist []),
        (L "clinical_notes", .vstr [])])])) :=
  transform_frontend_shape

/-- Witness for the amended C4: the shape statement instantiated at the
empty input, whose hypothesis is discharged by the empty-input conjunct. -/
theorem C4_shape_witness :
    ∃ (dgl mdl lbl vsl : List PyVal) (ag : PyVal) (nt : List Char),
      pyGet (PyVal.vdict []) (L "allergies") (PyVal.vlist []) = .ok ag ∧
      (PyVal.vdict [
        (L "status", .vstr (L "success")),
        (L "data", .vdict [
          (L "patient_info", create_patient_info (L "2026-10-12")),
          (L "diagnoses", .vlist []),
          (L "medications", .vlist []),
          (L "lab_results", .vlist []),
          (L "vital_signs", .vlist []),
          (L "allergies", .vlist []),
          (L "clinical_notes", .vstr [])])]) = .vdict [
        (L "status", .vstr (L "success")),
        (L "data", .vdict [
          (L "patient_info", create_patient_info (L "2026-10-12")),
          (L "diagnoses", .vlist dgl),
          (L "medications", .vlist mdl),
          (L "lab_results", .vlist lbl),
          (L "vital_signs", .vlist vsl),
          (L "allergies", ag),
          (L "clinical_notes", .vstr nt)])] :=
  C4_shape.1 (PyVal.vdict []) (L "2026-10-12") _ (C4_shape.2 (L "2026-10-12"))


/-! ## Claims C9 and C10: validate_pdf_format of src/pdf_processor.py -/

/-- The PDF magic signature: the four bytes of the ASCII text %PDF. -/
def pdfMagic : List Nat := [37, 80, 68, 70]

/-- An io.BytesIO stream: a byte buffer and a read position. -/
structure BytesIO where
  buf : List Nat
  pos : Nat

/-- The argument shapes validate_pdf_format distinguishes: a file path,
a bytes value, a BytesIO stream, or a value of any other type. -/
inductive PdfSource where
  | path (p : List Char)
  | bytes (b : List Nat)
  | byteStream (st : BytesIO)
  | other

/-- A file system, mapping paths to contents; opening a missing path
raises. -/
def FileSystem : Type := List Char → Option (List Nat)

/-- header.startswith of the magic bytes. -/
def headerStarts (header : List Nat) : Bool := pdfMagic.isPrefixOf header

/-- The body of validate_pdf_format before its catch-all except: read a
five-byte header according to the input shape and check the magic bytes.
The result pairs the boolean with the final state of the source — only the
BytesIO case is stateful: it saves the position, seeks to the start, reads
five bytes (the position advancing to at most five), and seeks back to the
saved position.  The only failing operation is opening a missing path. -/
def validate_pdf_format_body (fs : FileSystem) :
    PdfSource → Except Unit (Bool × PdfSource)
  | .path p =>
    match fs p with
    | some content => .ok (headerStarts (content.take 5), .path p)
    | none => .error ()
  | .bytes b => .ok (headerStarts (b.take 5), .bytes b)
  | .byteStream st =>
    let posSaved := st.pos
    let afterSeek : BytesIO := ⟨st.buf, 0⟩
    let header := afterSeek.buf.take 5
    let afterRead : BytesIO := ⟨afterSeek.buf, min 5 afterSeek.buf.length⟩
    let afterRestore : BytesIO := ⟨afterRead.buf, posSaved⟩
    .ok (headerStarts header, .byteStream afterRestore)
  | .other => .ok (false, .other)

/-- validate_pdf_format: the body wrapped in the catch-all except clause
returning False. -/
def validate_pdf_format (fs : FileSystem) (src : PdfSource) : Bool × PdfSource :=
  match validate_pdf_format_body fs src with
  | .ok r => r
  | .error _ => (false, src)

/-- A prefix of length at most five is a prefix of the five-byte header
exactly when it is a prefix of the whole buffer. -/
lemma isPrefixOf_take5 (t b : List Nat) (h : t.length ≤ 5) :
    t.isPrefixOf (b.take 5) = t.isPrefixOf b := by
  rcases hp : t.isPrefixOf b with _ | _
  · rcases hq : t.isPrefixOf (b.take 5) with _ | _
    · rfl
    · exfalso
      have hq' : t <+: b.take 5 := by
        rw [← List.isPrefixOf_iff_prefix]; exact hq
      have : t <+: b := hq'.trans (List.take_prefix 5 b)
      rw [← List.isPrefixOf_iff_prefix, hp] at this
      cases this
  · have hp' : t <+: b := by rw [← List.isPrefixOf_iff_prefix]; exact hp
    have : t <+: b.take 5 := List.prefix_take_iff.mpr ⟨hp', h⟩
    rw [← List.isPrefixOf_iff_prefix] at this
    rw [this]

/-- C9: on a bytes input, validate_pdf_format returns True exactly when the
bytes begin with the four-byte sequence %PDF; and it returns a boolean
rather than raising on every other input shape, in particular False for a
missing file path and False for an argument of an unsupported type. -/
theorem C9_validate_magic :
    (∀ (fs : FileSystem) (b : List Nat),
      (validate_pdf_format fs (.bytes b)).1 = pdfMagic.isPrefixOf b) ∧
    (∀ (fs : FileSystem) (p : List Char), fs p = none →
      validate_pdf_format fs (.path p) = (false, .path p)) ∧
    (∀ fs : FileSystem, validate_pdf_format fs .other = (false, .other)) := by
  refine ⟨fun fs b => ?_, fun fs p h => ?_, fun fs => rfl⟩
  · show headerStarts (b.take 5) = pdfMagic.isPrefixOf b
    exact isPrefixOf_take5 pdfMagic b (by decide)
  · simp [validate_pdf_format, validate_pdf_format_body, h]

/-- Witness for C9 at a concrete missing path and concrete byte strings. -/
theorem C9_validate_magic_witness :
    (validate_pdf_format (fun _ => none) (.bytes [37, 80, 68, 70, 99])).1 =
      pdfMagic.isPrefixOf [37, 80, 68, 70, 99] ∧
    ((fun _ => none) : FileSystem) (L "missing.pdf") = none ∧
    validate_pdf_format (fun _ => none) (.path (L "missing.pdf")) =
      (false, .path (L "missing.pdf")) :=
  ⟨C9_validate_magic.1 (fun _ => none) [37, 80, 68, 70, 99], rfl,
    C9_validate_magic.2.1 (fun _ => none) (L "missing.pdf") rfl⟩

/-- C10: on a BytesIO input the call is observationally pure for the
caller: the returned stream state equals the input state exactly — the
saved position is restored and the buffer is untouched — and the boolean
depends only on the first five bytes of the buffer. -/
theorem C10_bytesio_frame (fs : FileSystem) (st : BytesIO) :
    validate_pdf_format fs (.byteStream st) =
      (pdfMagic.isPrefixOf (st.buf.take 5), .byteStream st) := by
  cases st
  rfl


/-! ## Claim C6: the orchestrator (modelled from the spec) -/

/-- The class name of an exception, as interpolated into a message. -/
def pyExcName : PyExc → List Char
  | .typeError => L "TypeError"
  | .attributeError => L "AttributeError"
  | .valueError => L "ValueError"
  | .indexError => L "IndexError"

/-- The status field of an envelope dictionary, if any. -/
def envelopeStatus : PyVal → Option PyVal
  | .vdict l => (l.find? (fun p => p.1 == L "status")).map (fun p => p.2)
  | _ => none

/-- Modelled from the spec: the orchestrator of section 4.5 — the handler
that sequences text extraction, redaction, the LLM service call and
normalization and maps every failure into a ResultEnvelope — is not among
the files under src/ (src/app.py holds placeholder stubs with a different
message scheme and src/main.py is the CLI that exits the process), so the
sequencing and its error taxonomy are modelled from the specification's
words.  The external stages are parameters: extractResult is the outcome of
the text-extraction adapter, llm the service call on the redacted text
yielding the parsed extraction or a MedicalDataExtractionError-family
message.  Redaction and normalization are the embedded source functions,
and both envelope shapes are built with the embedded
transform_error_to_frontend. -/
def process_document
    (extractResult : Except (List Char) (List Char))
    (llm : List Char → Except (List Char) PyVal)
    (today : List Char) : PyVal :=
  match extractResult with
  | .error msg =>
    transform_error_to_frontend (L "Failed to process document: " ++ msg)
      (L "processing_error")
  | .ok text =>
    match llm (redact_sensitive_information text) with
    | .error msg => transform_error_to_frontend msg (L "api_error")
    | .ok data =>
      match transform_claude_output_to_frontend data today with
      | .ok env => env
      | .error e =>
        transform_error_to_frontend
          (L "Failed to process document: " ++ pyExcName e) (L "processing_error")

/-- C6 (spec-modelled): the orchestrator never lets a failure escape — for
every choice of stage outcomes it returns a ResultEnvelope: either the
success envelope of the normalizer or an error envelope whose error_type is
api_error or processing_error.  Every extraction failure and every
normalization failure surfaces as processing_error with the message prefix
Failed to process document, and every exception of the service call
surfaces as the api_error envelope. -/
theorem C6_orchestrator :
    (∀ (llm : List Char → Except (List Char) PyVal) (today msg : List Char),
      process_document (.error msg) llm today =
        transform_error_to_frontend (L "Failed to process document: " ++ msg)
          (L "processing_error")) ∧
    (∀ (ext : Except (List Char) (List Char)) (llm : List Char → Except (List Char) PyVal)
        (today text msg : List Char), ext = Except.ok text →
      llm (redact_sensitive_information text) = .error msg →
      process_document ext llm today = transform_error_to_frontend msg (L "api_error")) ∧
    (∀ (ext : Except (List Char) (List Char)) (llm : List Char → Except (List Char) PyVal)
        (today : List Char),
      envelopeStatus (process_document ext llm today) = some (.vstr (L "success")) ∨
      ∃ msg, process_document ext llm today =
          transform_error_to_frontend msg (L "api_error") ∨
        process_document ext llm today =
          transform_error_to_frontend msg (L "processing_error")) := by
  refine ⟨fun llm today msg => rfl, fun ext llm today text msg hx hl => ?_, fun ext llm today => ?_⟩
  · subst hx
    simp [process_document, hl]
  · cases ext with
    | error msg =>
      exact Or.inr ⟨L "Failed to process document: " ++ msg, Or.inr rfl⟩
    | ok text =>
      cases hl : llm (redact_sensitive_information text) with
      | error msg =>
        refine Or.inr ⟨msg, Or.inl ?_⟩
        simp [process_document, hl]
      | ok data =>
        cases ht : transform_claude_output_to_frontend data today with
        | error e =>
          refine Or.inr ⟨L "Failed to process document: " ++ pyExcName e, Or.inr ?_⟩
          simp [process_document, hl, ht]
        | ok env =>
          left
          obtain ⟨dgl, mdl, lbl, vsl, ag, nt, _, henv⟩ :=
            transform_frontend_shape.1 data today env ht
          subst henv
          simp [process_document, hl, ht, envelopeStatus]

/-- Witness for C6 at concrete stage outcomes: a failing service call is
surfaced as the api_error envelope. -/
theorem C6_orchestrator_witness :
    process_document (.ok (L "Patient data")) (fun _ => .error (L "rate limited"))
        (L "2026-10-12") =
      transform_error_to_frontend (L "rate limited") (L "api_error") :=
  C6_orchestrator.2.1 (.ok (L "Patient data")) (fun _ => .error (L "rate limited"))
    (L "2026-10-12") (L "Patient data") (L "rate limited") rfl rfl

/-! ## Claim C8: response handling of extract_medical_data_from_text -/

/-- str.lstrip. -/
def lstrip (s : List Char) : List Char := s.dropWhile isSpaceC

/-- str.rstrip. -/
def rstrip (s : List Char) : List Char := (s.reverse.dropWhile isSpaceC).reverse

/-- str.strip. -/
def pstrip (s : List Char) : List Char := rstrip (lstrip s)

/-- The ways the response handling fails. -/
inductive FailKind where
  | emptyResponse
  | parseError
  | parseAfterFence
deriving DecidableEq

/-- A failure of the response handling, carrying the bounded text snippet
its message interpolates. -/
structure ParseFailure where
  kind : FailKind
  snippet : List Char
deriving DecidableEq

/-- The opening-fence cut of the source: if the stripped reply opens with a
json-tagged or plain fence marker, cut it from the stripped text. -/
def fenceCut1 (s : List Char) : List Char :=
  if (L "```json").isPrefixOf (pstrip s) then (pstrip s).drop 7
  else if (L "```").isPrefixOf (pstrip s) then (pstrip s).drop 3
  else s

/-- The fence-stripping transformation of the source: the opening-fence cut,
then, when the stripped remainder closes with a fence marker, that marker
cut from the stripped remainder. -/
def fenceStrip (s : List Char) : List Char :=
  if (L "```").isSuffixOf (pstrip (fenceCut1 s)) then
    (pstrip (fenceCut1 s)).take ((pstrip (fenceCut1 s)).length - 3)
  else fenceCut1 s

/-- The response-handling logic of extract_medical_data_from_text in
src/medical_data_extractor.py, from the emptiness test through JSON
parsing.  json.loads belongs to the standard library, an external
collaborator, so it is the parameter loads; an empty or blank reply raises
before any parse; a direct parse failure retries once on the fence-stripped
text when a fence marker occurs anywhere in the reply; the raised failure
carries the first five hundred characters of the text the failing branch
held. -/
def handleResponse {α : Type} (loads : List Char → Option α)
    (extracted : List Char) : Except ParseFailure α :=
  if (pstrip extracted).isEmpty then .error ⟨.emptyResponse, []⟩
  else
    match loads extracted with
    | some v => .ok v
    | none =>
      if containsSub extracted (L "```") then
        match loads (pstrip (fenceStrip extracted)) with
        | some v => .ok v
        | none => .error ⟨.parseAfterFence, (fenceStrip extracted).take 500⟩
      else .error ⟨.parseError, extracted.take 500⟩

/-- A reply wrapped in a json-tagged fenced code block. -/
def fenceJson (j : List Char) : List Char :=
  L "```json" ++ (('\n' :: j) ++ ('\n' :: L "```"))

/-- A reply wrapped in a plain fenced code block. -/
def fencePlain (j : List Char) : List Char :=
  L "```" ++ (('\n' :: j) ++ ('\n' :: L "```"))

/-- Dropping while a predicate holds skips a wholly satisfying prefix. -/
lemma dropWhile_append_all {p : Char → Bool} {ws t : List Char}
    (h : ws.all p = true) : List.dropWhile p (ws ++ t) = List.dropWhile p t := by
  rw [List.dropWhile_append]
  have hnil : List.dropWhile p ws = [] :=
    List.dropWhile_eq_nil_iff.mpr (fun x hx => List.all_eq_true.mp h x hx)
  simp [hnil]

/-- lstrip over a wholly blank prefix. -/
lemma lstrip_append_all {ws t : List Char} (h : ws.all isSpaceC = true) :
    lstrip (ws ++ t) = lstrip t := dropWhile_append_all h

/-- rstrip over a wholly blank suffix. -/
lemma rstrip_append_all {t ws : List Char} (h : ws.all isSpaceC = true) :
    rstrip (t ++ ws) = rstrip t := by
  unfold rstrip
  rw [List.reverse_append, dropWhile_append_all (by rw [List.all_reverse]; exact h)]

/-- lstrip keeps a non-blank head. -/
lemma lstrip_cons_nonws {c : Char} {t : List Char} (h : isSpaceC c = false) :
    lstrip (c :: t) = c :: t := by
  simp [lstrip, List.dropWhile_cons, h]

/-- rstrip keeps a non-blank last element. -/
lemma rstrip_append_nonws {t : List Char} {c : Char} (h : isSpaceC c = false) :
    rstrip (t ++ [c]) = t ++ [c] := by
  simp [rstrip, List.reverse_append, List.dropWhile_cons, h]

/-- lstrip distributes over an append when it keeps part of the left side. -/
lemma lstrip_append_ne {s t : List Char} (h : lstrip s ≠ []) :
    lstrip (s ++ t) = lstrip s ++ t := by
  unfold lstrip at *
  rw [List.dropWhile_append]
  simp only [List.isEmpty_iff]
  rw [if_neg h]

/-- lstrip is idempotent. -/
lemma lstrip_idem (s : List Char) : lstrip (lstrip s) = lstrip s :=
  List.dropWhile_idempotent _ _

/-- The blank-character test distributes from a string to its lstrip. -/
lemma all_lstrip_iff (s : List Char) :
    (lstrip s).all isSpaceC = s.all isSpaceC := by
  conv_rhs => rw [← List.takeWhile_append_dropWhile isSpaceC s]
  rw [List.all_append, List.all_takeWhile]
  simp [lstrip]

/-- A strip is empty exactly when the string is wholly blank. -/
lemma pstrip_eq_nil_iff (s : List Char) :
    pstrip s = [] ↔ s.all isSpaceC = true := by
  unfold pstrip rstrip
  rw [List.reverse_eq_nil_iff, List.dropWhile_eq_nil_iff]
  constructor
  · intro h
    rw [← all_lstrip_iff, List.all_eq_true]
    intro x hx
    exact h x (by rw [List.mem_reverse]; exact hx)
  · intro h x hx
    rw [List.mem_reverse] at hx
    exact List.all_eq_true.mp (by rw [all_lstrip_iff]; exact h) x hx

/-- lstrip is empty exactly on wholly blank strings. -/
lemma lstrip_eq_nil_iff (s : List Char) :
    lstrip s = [] ↔ s.all isSpaceC = true := by
  unfold lstrip
  rw [List.dropWhile_eq_nil_iff, List.all_eq_true]

/-- A needle found at the start witnesses containment. -/
lemma containsSub_zero {s t : List Char} (h : sliceIs s 0 t = true) :
    containsSub s t = true := by
  unfold containsSub
  rw [List.any_eq_true]
  exact ⟨0, by simp [List.mem_range], h⟩

/-- lstrip drops a blank head. -/
lemma lstrip_cons_ws {c : Char} {t : List Char} (h : isSpaceC c = true) :
    lstrip (c :: t) = lstrip t := by
  simp [lstrip, List.dropWhile_cons, h]

/-- The combined blank-stripping of the tail shared by both fence forms:
a newline, the reply, a newline and the closing fence marker strip to the
left-stripped reply followed by the newline and the marker. -/
lemma pstrip_fence_tail (j : List Char) (hne : lstrip j ≠ []) :
    pstrip (('\n' :: j) ++ ('\n' :: L "```")) = lstrip j ++ ('\n' :: L "```") := by
  unfold pstrip
  have h1 : lstrip (('\n' :: j) ++ ('\n' :: L "```")) = lstrip j ++ ('\n' :: L "```") := by
    rw [List.cons_append, lstrip_cons_ws (by decide)]
    exact lstrip_append_ne hne
  rw [h1]
  rw [show lstrip j ++ ('\n' :: L "```") = (lstrip j ++ ['\n', '`', '`']) ++ ['`'] by
    simp [L]]
  rw [show rstrip ((lstrip j ++ ['\n', '`', '`']) ++ ['`']) =
      (lstrip j ++ ['\n', '`', '`']) ++ ['`'] from rstrip_append_nonws (by decide)]

/-- The length arithmetic of cutting the closing marker. -/
lemma take_cut_marker (jc : List Char) :
    (jc ++ ('\n' :: L "```")).take ((jc ++ ('\n' :: L "```")).length - 3) =
      jc ++ ['\n'] := by
  rw [show jc ++ ('\n' :: L "```") = (jc ++ ['\n']) ++ L "```" by simp [L]]
  rw [show ((jc ++ ['\n']) ++ L "```").length - 3 = (jc ++ ['\n']).length + 0 by
    simp [List.length_append, L]]
  rw [List.take_append]
  simp

/-- After both cuts the remaining text strips to the strip of the reply. -/
lemma pstrip_cut (j : List Char) (hne : lstrip j ≠ []) :
    pstrip (lstrip j ++ ['\n']) = pstrip j := by
  unfold pstrip
  have h1 : lstrip (lstrip j ++ ['\n']) = lstrip j ++ ['\n'] := by
    rw [lstrip_append_ne (by rw [lstrip_idem]; exact hne), lstrip_idem]
  rw [h1, @rstrip_append_all (lstrip j) ['\n'] (by decide)]

/-- The json-tagged fence form is already stripped. -/
lemma pstrip_fenceJson (j : List Char) : pstrip (fenceJson j) = fenceJson j := by
  have hfj : fenceJson j =
      '`' :: '`' :: '`' :: 'j' :: 's' :: 'o' :: 'n' :: '\n' ::
        (j ++ ('\n' :: L "```")) := rfl
  unfold pstrip
  rw [hfj, lstrip_cons_nonws (by decide)]
  rw [show ('`' :: '`' :: '`' :: 'j' :: 's' :: 'o' :: 'n' :: '\n' ::
        (j ++ ('\n' :: L "```"))) =
      ('`' :: '`' :: '`' :: 'j' :: 's' :: 'o' :: 'n' :: '\n' ::
        (j ++ ['\n', '`', '`'])) ++ ['`'] by simp [L]]
  rw [rstrip_append_nonws (by decide)]

/-- The plain fence form is already stripped. -/
lemma pstrip_fencePlain (j : List Char) : pstrip (fencePlain j) = fencePlain j := by
  have hfj : fencePlain j =
      '`' :: '`' :: '`' :: '\n' :: (j ++ ('\n' :: L "```")) := rfl
  unfold pstrip
  rw [hfj, lstrip_cons_nonws (by decide)]
  rw [show ('`' :: '`' :: '`' :: '\n' :: (j ++ ('\n' :: L "```"))) =
      ('`' :: '`' :: '`' :: '\n' :: (j ++ ['\n', '`', '`'])) ++ ['`'] by simp [L]]
  rw [rstrip_append_nonws (by decide)]

/-- Cutting the fences of the json-tagged form leaves the left-stripped
reply and a newline. -/
lemma fenceStrip_fenceJson (j : List Char) (hne : lstrip j ≠ []) :
    fenceStrip (fenceJson j) = lstrip j ++ ['\n'] := by
  have hpre : (L "```json").isPrefixOf (fenceJson j) = true := by
    rw [List.isPrefixOf_iff_prefix]
    exact List.prefix_append (L "```json") (('\n' :: j) ++ ('\n' :: L "```"))
  have hd7 : (fenceJson j).drop 7 = ('\n' :: j) ++ ('\n' :: L "```") :=
    List.drop_left (L "```json") (('\n' :: j) ++ ('\n' :: L "```"))
  have hcut : fenceCut1 (fenceJson j) = ('\n' :: j) ++ ('\n' :: L "```") := by
    unfold fenceCut1
    rw [pstrip_fenceJson, hpre]
    simp only [if_true]
    exact hd7
  have hsuf : (L "```").isSuffixOf (lstrip j ++ ('\n' :: L "```")) = true := by
    rw [List.isSuffixOf_iff_suffix]
    rw [show lstrip j ++ ('\n' :: L "```") = (lstrip j ++ ['\n']) ++ L "```" by simp [L]]
    exact List.suffix_append _ _
  unfold fenceStrip
  rw [hcut, pstrip_fence_tail j hne, hsuf]
  simp only [if_true]
  exact take_cut_marker (lstrip j)

/-- Cutting the fences of the plain form leaves the left-stripped reply and
a newline as well. -/
lemma fenceStrip_fencePlain (j : List Char) (hne : lstrip j ≠ []) :
    fenceStrip (fencePlain j) = lstrip j ++ ['\n'] := by
  have hnp : (L "```json").isPrefixOf (fencePlain j) = false := rfl
  have hpre : (L "```").isPrefixOf (fencePlain j) = true := by
    rw [List.isPrefixOf_iff_prefix]
    exact List.prefix_append (L "```") (('\n' :: j) ++ ('\n' :: L "```"))
  have hd3 : (fencePlain j).drop 3 = ('\n' :: j) ++ ('\n' :: L "```") :=
    List.drop_left (L "```") (('\n' :: j) ++ ('\n' :: L "```"))
  have hcut : fenceCut1 (fencePlain j) = ('\n' :: j) ++ ('\n' :: L "```") := by
    unfold fenceCut1
    rw [pstrip_fencePlain, hnp, hpre]
    simp only [Bool.false_eq_true, if_false, if_true]
    exact hd3
  have hsuf : (L "```").isSuffixOf (lstrip j ++ ('\n' :: L "```")) = true := by
    rw [List.isSuffixOf_iff_suffix]
    rw [show lstrip j ++ ('\n' :: L "```") = (lstrip j ++ ['\n']) ++ L "```" by simp [L]]
    exact List.suffix_append _ _
  unfold fenceStrip
  rw [hcut, pstrip_fence_tail j hne, hsuf]
  simp only [if_true]
  exact take_cut_marker (lstrip j)

/-- C8 amended, part structure: fence-stripping round trip under the
interface of json.loads — a parser that succeeds identically on stripped
text, fails when the first non-blank character is a backtick, and fails on
blank text — plus the corrected provenance of the failure snippet: the
snippet is at most five hundred characters, a prefix of the raw reply when
no fence marker occurred, and a prefix of the fence-stripped text when one
did. -/
theorem C8_roundtrip_and_snippet :
    (∀ (α : Type) (loads : List Char → Option α)
      (_ : ∀ s v, loads s = some v → loads (pstrip s) = some v)
      (_ : ∀ s, ((s.dropWhile isSpaceC).head? = some '`') → loads s = none)
      (_ : ∀ s, s.all isSpaceC = true → loads s = none)
      (j : List Char) (v : α), loads j = some v →
      handleResponse loads j = .ok v ∧
      handleResponse loads (fenceJson j) = .ok v ∧
      handleResponse loads (fencePlain j) = .ok v) ∧
    (∀ (α : Type) (loads : List Char → Option α) (s : List Char) (e : ParseFailure),
      handleResponse loads s = .error e →
      e.snippet.length ≤ 500 ∧
      (e.kind = .parseError → e.snippet = s.take 500 ∧ e.snippet.isPrefixOf s = true) ∧
      (e.kind = .parseAfterFence → e.snippet = (fenceStrip s).take 500 ∧
        e.snippet.isPrefixOf (fenceStrip s) = true) ∧
      (e.kind = .emptyResponse → e.snippet = [])) := by
  constructor
  · intro α loads H1 H2 H3 j v hj
    have hall : ¬ (j.all isSpaceC = true) := by
      intro h
      rw [H3 j h] at hj
      cases hj
    have hpne : pstrip j ≠ [] := fun h => hall ((pstrip_eq_nil_iff j).mp h)
    have hlne : lstrip j ≠ [] := fun h => hall ((lstrip_eq_nil_iff j).mp h)
    refine ⟨?_, ?_, ?_⟩
    · unfold handleResponse
      rw [if_neg (by simp [List.isEmpty_iff, hpne])]
      rw [hj]
    · have hfj : fenceJson j =
          '`' :: '`' :: '`' :: 'j' :: 's' :: 'o' :: 'n' :: '\n' ::
            (j ++ ('\n' :: L "```")) := rfl
      have hnone : loads (fenceJson j) = none := by
        apply H2
        rw [hfj]
        rfl
      have hcontains : containsSub (fenceJson j) (L "```") = true := by
        apply containsSub_zero
        rw [hfj]
        rfl
      have hfinal : loads (pstrip (fenceStrip (fenceJson j))) = some v := by
        rw [fenceStrip_fenceJson j hlne, pstrip_cut j hlne]
        exact H1 j v hj
      unfold handleResponse
      rw [if_neg (by
        rw [pstrip_fenceJson]
        simp [List.isEmpty_iff, hfj])]
      rw [hnone, hcontains]
      simp only [if_true]
      rw [hfinal]
    · have hfp : fencePlain j =
          '`' :: '`' :: '`' :: '\n' :: (j ++ ('\n' :: L "```")) := rfl
      have hnone : loads (fencePlain j) = none := by
        apply H2
        rw [hfp]
        rfl
      have hcontains : containsSub (fencePlain j) (L "```") = true := by
        apply containsSub_zero
        rw [hfp]
        rfl
      have hfinal : loads (pstrip (fenceStrip (fencePlain j))) = some v := by
        rw [fenceStrip_fencePlain j hlne, pstrip_cut j hlne]
        exact H1 j v hj
      unfold handleResponse
      rw [if_neg (by
        rw [pstrip_fencePlain]
        simp [List.isEmpty_iff, hfp])]
      rw [hnone, hcontains]
      simp only [if_true]
      rw [hfinal]
  · intro α loads s e h
    unfold handleResponse at h
    by_cases hemp : (pstrip s).isEmpty = true
    · rw [if_pos hemp] at h
      cases h
      refine ⟨by simp, ?_, ?_, ?_⟩
      · intro hk
        simp at hk
      · intro hk
        simp at hk
      · intro _
        rfl
    · rw [if_neg hemp] at h
      cases hl : loads s with
      | some v => rw [hl] at h; cases h
      | none =>
        rw [hl] at h
        by_cases hc : containsSub s (L "```") = true
        · rw [if_pos hc] at h
          cases hl2 : loads (pstrip (fenceStrip s)) with
          | some v => rw [hl2] at h; cases h
          | none =>
            rw [hl2] at h
            cases h
            refine ⟨by simp [List.length_take], ?_, ?_, ?_⟩
            · intro hk
              simp at hk
            · intro _
              refine ⟨rfl, ?_⟩
              rw [List.isPrefixOf_iff_prefix]
              exact List.take_prefix 500 (fenceStrip s)
            · intro hk
              simp at hk
        · rw [if_neg hc] at h
          cases h
          refine ⟨by simp [List.length_take], ?_, ?_, ?_⟩
          · intro _
            refine ⟨rfl, ?_⟩
            rw [List.isPrefixOf_iff_prefix]
            exact List.take_prefix 500 s
          · intro hk
            simp at hk
          · intro hk
            simp at hk

/-- A miniature parser accepting exactly the JSON text null, standing in for
json.loads (part of the standard library, outside this repository) in the
concrete instances. -/
def toyLoads (s : List Char) : Option (List Char) :=
  if s = L "null" then some (L "null") else none

/-- toyLoads succeeds identically on stripped text. -/
lemma toyLoads_strip : ∀ s v, toyLoads s = some v → toyLoads (pstrip s) = some v := by
  intro s v h
  unfold toyLoads at h ⊢
  by_cases hs : s = L "null"
  · subst hs
    rw [show pstrip (L "null") = L "null" from rfl]
    exact h
  · rw [if_neg hs] at h
    cases h

/-- toyLoads fails when the first non-blank character is a backtick. -/
lemma toyLoads_backtick :
    ∀ s, ((s.dropWhile isSpaceC).head? = some '`') → toyLoads s = none := by
  intro s hhead
  unfold toyLoads
  rw [if_neg]
  intro hs
  subst hs
  exact absurd hhead (by decide)

/-- toyLoads fails on blank text. -/
lemma toyLoads_blank : ∀ s, s.all isSpaceC = true → toyLoads s = none := by
  intro s h
  unfold toyLoads
  rw [if_neg]
  intro hs
  subst hs
  exact absurd h (by decide)

/-- C8 fails as stated in its diagnostic clause: on a reply that opens with
a fence marker but holds no JSON, the raised failure carries a prefix of the
fence-stripped text, which is not a prefix of the raw response. -/
theorem C8_counterexample :
    handleResponse toyLoads (L "```json" ++ '\n' :: L "garbage") =
      .error ⟨.parseAfterFence, '\n' :: L "garbage"⟩ ∧
    ('\n' :: L "garbage").isPrefixOf (L "```json" ++ '\n' :: L "garbage") = false := by
  exact ⟨rfl, rfl⟩

/-- Witness for the amended C8 at the concrete parser toyLoads: the round
trip at the reply null, and the snippet facts at the failing reply x. -/
theorem C8_roundtrip_witness :
    (handleResponse toyLoads (L "null") = .ok (L "null") ∧
     handleResponse toyLoads (fenceJson (L "null")) = .ok (L "null") ∧
     handleResponse toyLoads (fencePlain (L "null")) = .ok (L "null")) ∧
    ((ParseFailure.mk .parseError (L "x")).snippet.length ≤ 500 ∧
     ((ParseFailure.mk .parseError (L "x")).kind = .parseError →
       (ParseFailure.mk .parseError (L "x")).snippet = (L "x").take 500 ∧
       (ParseFailure.mk .parseError (L "x")).snippet.isPrefixOf (L "x") = true) ∧
     ((ParseFailure.mk .parseError (L "x")).kind = .parseAfterFence →
       (ParseFailure.mk .parseError (L "x")).snippet = (fenceStrip (L "x")).take 500 ∧
       (ParseFailure.mk .parseError (L "x")).snippet.isPrefixOf (fenceStrip (L "x")) = true) ∧
     ((ParseFailure.mk .parseError (L "x")).kind = .emptyResponse →
       (ParseFailure.mk .parseError (L "x")).snippet = [])) :=
  ⟨C8_roundtrip_and_snippet.1 (List Char) toyLoads toyLoads_strip toyLoads_backtick
      toyLoads_blank (L "null") (L "null") rfl,
   C8_roundtrip_and_snippet.2 (List Char) toyLoads (L "x")
      (ParseFailure.mk .parseError (L "x")) rfl⟩

end MedRec

